import Mathlib

/-!
# visualization.spectrum: the spectrum bar visualisation

A shallow embedding of `src/opengl_spectrum.cpp` (class `CVisualizationSpectrum`)
and theorems about its history buffer, settings and lifecycle.

Modelling conventions.

* `GLfloat`, `float` and `double` values are exact rationals (`ℚ`): rounding is
  outside the model, every float constant stands for the decimal written in the
  source.
* `int` values are `Int`; the only place where machine arithmetic matters is the
  comparison and division of `iFreqDataLength` with the unsigned `NUM_BARS`
  in `AudioData`, which are embedded with explicit `% 2^32`.
* A `float*` argument is the memory it points to, a function from the offset to
  the value stored there.
* `m_heights` is a function of the row and the column index; only indices below
  `NUM_BARS` are cells of the array and nothing reads or writes another one.
* `for` loops with a counter running up are folds over `List.range`; the loop
  counting down, whose counter is read after the loop, is a recursion that
  returns the counter.
* What the host and the build provide (settings storage, the `log` of the math
  library, the `HAS_GL` flag) is collected in `Env`; the answers of the shader
  services are arguments of `Start`.  Matrices, uniform locations and the GL
  state toggled by `Render` are not part of the model.
* `kodi::Log` calls and `glDrawArrays` calls are returned as lists next to the
  new state.
-/

/-- The macro `NUM_BARS`, `(16U)` in the source: an unsigned constant. -/
abbrev NUM_BARS : Nat := 16

/-- Conversion of an `int` to `unsigned int` (32 bits). -/
def toUnsigned (i : Int) : Nat := (i % 2 ^ 32).toNat

/-- Conversion of an `unsigned int` to `int` (32 bits, two's complement). -/
def toInt (u : Nat) : Int :=
  if u % 2 ^ 32 < 2 ^ 31 then ((u % 2 ^ 32 : Nat) : Int) else ((u % 2 ^ 32 : Nat) : Int) - 2 ^ 32

/-- The array `GLfloat m_heights[NUM_BARS][NUM_BARS]`, indexed `[y][x]`. -/
abbrev Grid := Nat → Nat → ℚ

/-- The assignment `m_heights[y][x] = v`. -/
def setCell (h : Grid) (y x : Nat) (v : ℚ) : Grid :=
  fun y' x' => if y' = y ∧ x' = x then v else h y' x'

/-- The type `glm::vec3`. -/
structure vec3 where
  x : ℚ
  y : ℚ
  z : ℚ
  deriving DecidableEq

/-- The values of `GLenum` that `m_mode` takes. -/
inductive GLenum where
  | GL_POINTS
  | GL_LINES
  | GL_TRIANGLES
  deriving DecidableEq

/-- The log levels of `kodi::Log` used by the source. -/
inductive AddonLog where
  | ADDON_LOG_DEBUG
  | ADDON_LOG_INFO
  | ADDON_LOG_ERROR
  deriving DecidableEq

/-- One call of `kodi::Log`: the level, the format string and the integer arguments. -/
structure LogEntry where
  level : AddonLog
  format : String
  args : List Int
  deriving DecidableEq

/-- The type `ADDON_STATUS`, restricted to the two values the source returns. -/
inductive ADDON_STATUS where
  | ADDON_STATUS_OK
  | ADDON_STATUS_UNKNOWN
  deriving DecidableEq

/-- The type `kodi::CSettingValue`, seen through the two members the source calls. -/
structure CSettingValue where
  empty : Bool
  GetInt : Int

/-- What the build and the host provide: the `HAS_GL` compile flag,
`kodi::GetSettingInt` and the `log` function of the math library. -/
structure Env where
  HAS_GL : Bool
  GetSettingInt : String → Int
  log : ℚ → ℚ

/-- One call `glDrawArrays(mode, 0, count)` together with the vertex and colour
data it draws. -/
structure DrawCall where
  mode : GLenum
  count : Nat
  vertices : List vec3
  colors : List vec3
  deriving DecidableEq

/-- The data members of `class CVisualizationSpectrum`. -/
structure CVisualizationSpectrum where
  m_heights : Grid
  m_scale : ℚ
  m_mode : GLenum
  m_y_angle : ℚ
  m_y_speed : ℚ
  m_y_fixedAngle : ℚ
  m_x_angle : ℚ
  m_x_speed : ℚ
  m_z_angle : ℚ
  m_z_speed : ℚ
  m_updateLag : Int
  m_bar_color_type : Int
  m_debugInfoAlreadyDisplayed : Bool
  m_pointSize : ℚ
  m_vertex_buffer_data : List vec3
  m_color_buffer_data : List vec3
  m_vertexVBO : Nat × Nat
  m_startOK : Bool

/-! ## AudioData -/

/-- The inner loop of the shift,
`for (x = 0; x < NUM_BARS; x++) m_heights[y][x] = m_heights[y - 1][x];`. -/
def shiftRow (h : Grid) (y : Nat) : Grid :=
  (List.range NUM_BARS).foldl (fun g x => setCell g y x (g (y - 1) x)) h

/-- The outer loop of the shift, `for (y = ...; y > 0; y--)`, started at `y`:
it returns the final value of `y` with the grid. -/
def shiftRows : Nat → Grid → Nat × Grid
  | 0, h => (0, h)
  | y + 1, h => shiftRows y (shiftRow h (y + 1))

/-- The loop of the error branch,
`for (x = 0; x < NUM_BARS; x++) m_heights[y][x] = -1.0f;`. -/
def fillSentinel (h : Grid) (y : Nat) : Grid :=
  (List.range NUM_BARS).foldl (fun g x => setCell g y x (-1.0)) h

/-- The innermost loop of the else branch,
`for (c = 0; c < dividerOfFFTSamples; c++) { m_heights[0][x] += *pTempFreqData; pTempFreqData++; }`;
the state is the grid and the offset of `pTempFreqData` from `pFreqData`. -/
def sumBucket (pFreqData : Nat → ℚ) (dividerOfFFTSamples : Int) (x : Nat)
    (st : Grid × Nat) : Grid × Nat :=
  (List.range dividerOfFFTSamples.toNat).foldl
    (fun st _ => (setCell st.1 0 x (st.1 0 x + pFreqData st.2), st.2 + 1)) st

/-- The loop over the bars of the else branch,
`for (x = 0; x < NUM_BARS; x++) { m_heights[0][x] = 0.0f; ... }`. -/
def fillRow (pFreqData : Nat → ℚ) (dividerOfFFTSamples : Int) (h : Grid) : Grid × Nat :=
  (List.range NUM_BARS).foldl
    (fun st x => sumBucket pFreqData dividerOfFFTSamples x (setCell st.1 0 x 0.0, st.2)) (h, 0)

/-- The method `CVisualizationSpectrum::AudioData`. -/
def CVisualizationSpectrum.AudioData (s : CVisualizationSpectrum) (_pAudioData : Nat → ℚ)
    (iAudioDataLength : Int) (pFreqData : Nat → ℚ) (iFreqDataLength : Int) :
    CVisualizationSpectrum × List LogEntry :=
  let yh := shiftRows (NUM_BARS - 1) s.m_heights
  if toUnsigned iFreqDataLength < NUM_BARS then
    ({ s with m_heights := fillSentinel yh.2 yh.1 },
      [⟨AddonLog.ADDON_LOG_ERROR,
        "iFreqDataLength=%d but we expected a number greater than: %d",
        [iFreqDataLength, NUM_BARS]⟩])
  else
    let dividerOfFFTSamples : Int := toInt (toUnsigned iFreqDataLength / NUM_BARS)
    let dbg : Bool × List LogEntry :=
      if s.m_debugInfoAlreadyDisplayed = false then
        (true, [⟨AddonLog.ADDON_LOG_DEBUG,
          "iAudioDataLength=%d, iFreqDataLength=%d, dividerOfFFTSamples=%d",
          [iAudioDataLength, iFreqDataLength, dividerOfFFTSamples]⟩])
      else (s.m_debugInfoAlreadyDisplayed, [])
    ({ s with
        m_heights := (fillRow pFreqData dividerOfFFTSamples yh.2).1
        m_debugInfoAlreadyDisplayed := dbg.1 }, dbg.2)

/-! ## The setters -/

/-- The method `CVisualizationSpectrum::SetBarHeightSetting`. -/
def CVisualizationSpectrum.SetBarHeightSetting (env : Env) (s : CVisualizationSpectrum)
    (settingValue : Int) : CVisualizationSpectrum :=
  if settingValue = 1 then { s with m_scale := 1.0 / env.log 256.0 }
  else if settingValue = 2 then { s with m_scale := 2.0 / env.log 256.0 }
  else if settingValue = 3 then { s with m_scale := 3.0 / env.log 256.0 }
  else if settingValue = 4 then { s with m_scale := 0.33 / env.log 256.0 }
  else { s with m_scale := 0.5 / env.log 256.0 }

/-- The method `CVisualizationSpectrum::SetModeSetting`. -/
def CVisualizationSpectrum.SetModeSetting (env : Env) (s : CVisualizationSpectrum)
    (settingValue : Int) : CVisualizationSpectrum :=
  if settingValue = 1 then { s with m_mode := GLenum.GL_LINES, m_pointSize := 0.0 }
  else if settingValue = 2 then
    { s with m_mode := GLenum.GL_POINTS, m_pointSize := (env.GetSettingInt "pointsize" : ℚ) }
  else { s with m_mode := GLenum.GL_TRIANGLES, m_pointSize := 0.0 }

/-- The method `CVisualizationSpectrum::SetSpeedSetting`. -/
def CVisualizationSpectrum.SetSpeedSetting (s : CVisualizationSpectrum)
    (settingValue : Int) : CVisualizationSpectrum :=
  if settingValue ≥ 0 ∧ settingValue ≤ 4 then { s with m_updateLag := settingValue } else s

/-- The method `CVisualizationSpectrum::SetBarColorSetting`. -/
def CVisualizationSpectrum.SetBarColorSetting (s : CVisualizationSpectrum)
    (settingValue : Int) : CVisualizationSpectrum :=
  if settingValue ≥ 0 then { s with m_bar_color_type := settingValue } else s

/-- The method `CVisualizationSpectrum::SetRotationSpeedSetting`. -/
def CVisualizationSpectrum.SetRotationSpeedSetting (s : CVisualizationSpectrum)
    (settingValue : Int) : CVisualizationSpectrum :=
  if settingValue = 4 then { s with m_y_speed := 10.0 }
  else if settingValue = 3 then { s with m_y_speed := 6.0 }
  else if settingValue = 2 then { s with m_y_speed := 3.0 }
  else if settingValue = 1 then { s with m_y_speed := 1.5 }
  else if settingValue = -1 then { s with m_y_speed := 0.25 }
  else if settingValue = -2 then { s with m_y_speed := 0.0625 }
  else if settingValue = -3 then { s with m_y_speed := 0.03125 }
  else if settingValue = -4 then { s with m_y_speed := 0.015625 }
  else { s with m_y_speed := 0.5 }

/-- The method `CVisualizationSpectrum::SetSetting`. -/
def CVisualizationSpectrum.SetSetting (env : Env) (s : CVisualizationSpectrum)
    (settingName : String) (settingValue : CSettingValue) :
    ADDON_STATUS × CVisualizationSpectrum :=
  if settingName.isEmpty || settingValue.empty then (ADDON_STATUS.ADDON_STATUS_UNKNOWN, s)
  else if settingName = "bar_height" then
    (ADDON_STATUS.ADDON_STATUS_OK, s.SetBarHeightSetting env settingValue.GetInt)
  else if settingName = "speed" then
    (ADDON_STATUS.ADDON_STATUS_OK, s.SetSpeedSetting settingValue.GetInt)
  else if settingName = "mode" then
    (ADDON_STATUS.ADDON_STATUS_OK, s.SetModeSetting env settingValue.GetInt)
  else if settingName = "rotation_angle" then
    (ADDON_STATUS.ADDON_STATUS_OK, { s with m_y_fixedAngle := (settingValue.GetInt : ℚ) })
  else if settingName = "bar_color_type" then
    (ADDON_STATUS.ADDON_STATUS_OK, s.SetBarColorSetting settingValue.GetInt)
  else if settingName = "rotation_speed" then
    (ADDON_STATUS.ADDON_STATUS_OK, s.SetRotationSpeedSetting settingValue.GetInt)
  else (ADDON_STATUS.ADDON_STATUS_UNKNOWN, s)

/-- The method `CVisualizationSpectrum::GetInfo`: the pair `(wantsFreq, syncDelay)`. -/
def CVisualizationSpectrum.GetInfo (s : CVisualizationSpectrum) : Bool × Int :=
  (true, s.m_updateLag)

/-! ## Construction, Start and Stop -/

/-- The constructor `CVisualizationSpectrum::CVisualizationSpectrum`.  It does not
initialise `m_heights`: the content of the array is whatever the memory holds. -/
def CVisualizationSpectrum.ctor (env : Env) (m_heights : Grid) :
    CVisualizationSpectrum × List LogEntry :=
  let s0 : CVisualizationSpectrum :=
    { m_heights := m_heights
      m_scale := 1.0 / env.log 256.0
      m_mode := GLenum.GL_TRIANGLES
      m_y_angle := 45.0
      m_y_speed := 1.5
      m_y_fixedAngle := 0
      m_x_angle := 20.0
      m_x_speed := 0.0
      m_z_angle := 0.0
      m_z_speed := 0.0
      m_updateLag := 0
      m_bar_color_type := 0
      m_debugInfoAlreadyDisplayed := false
      m_pointSize := 0.0
      m_vertex_buffer_data := []
      m_color_buffer_data := []
      m_vertexVBO := (0, 0)
      m_startOK := false }
  let s1 := s0.SetBarHeightSetting env (env.GetSettingInt "bar_height")
  let s2 := s1.SetSpeedSetting (env.GetSettingInt "speed")
  let s3 := s2.SetModeSetting env (env.GetSettingInt "mode")
  let s4 := { s3 with m_y_fixedAngle := (env.GetSettingInt "rotation_angle" : ℚ) }
  let s5 := s4.SetBarColorSetting (env.GetSettingInt "bar_color_type")
  let s6 := s5.SetRotationSpeedSetting (env.GetSettingInt "rotation_speed")
  ({ s6 with
      m_vertex_buffer_data := List.replicate 48 ⟨0, 0, 0⟩
      m_color_buffer_data := List.replicate 48 ⟨0, 0, 0⟩ },
    [⟨AddonLog.ADDON_LOG_INFO, "Spectrumolator construction completed...", []⟩])

/-- The loops of `Start` that clear the array,
`for (x ...) for (y ...) m_heights[y][x] = 0.0f;`. -/
def clearHeights (h : Grid) : Grid :=
  (List.range NUM_BARS).foldl
    (fun g x => (List.range NUM_BARS).foldl (fun g y => setCell g y x 0.0) g) h

/-- The method `CVisualizationSpectrum::Start`.  `LoadShaderFiles` and
`CompileAndLink` are the answers of the shader services, `glGenBuffers` the two
buffer names the GL hands out. -/
def CVisualizationSpectrum.Start (env : Env) (s : CVisualizationSpectrum)
    (_channels _samplesPerSec _bitsPerSample : Int) (_songName : String)
    (LoadShaderFiles CompileAndLink : Bool) (glGenBuffers : Nat × Nat) :
    Bool × CVisualizationSpectrum × List LogEntry :=
  if !LoadShaderFiles || !CompileAndLink then
    (false, s, [⟨AddonLog.ADDON_LOG_ERROR, "Failed to create or compile shader", []⟩])
  else
    (true,
      { s with
        m_heights := clearHeights s.m_heights
        m_vertexVBO := if env.HAS_GL then glGenBuffers else s.m_vertexVBO
        m_startOK := true },
      [])

/-- The method `CVisualizationSpectrum::Stop`. -/
def CVisualizationSpectrum.Stop (env : Env) (s : CVisualizationSpectrum) :
    CVisualizationSpectrum :=
  if !s.m_startOK then s
  else
    { s with
      m_startOK := false
      m_vertexVBO := if env.HAS_GL then (0, 0) else s.m_vertexVBO }

/-! ## Rendering -/

/-- The vertex list assigned to `m_vertex_buffer_data` by `draw_bar`, `width`
being the local constant `0.1f`. -/
def barVertices (x_offset z_offset height width : ℚ) : List vec3 :=
  [
    ⟨x_offset + width, 0.0, z_offset + width⟩,
    ⟨x_offset, 0.0, z_offset⟩,
    ⟨x_offset + width, 0.0, z_offset⟩,
    ⟨x_offset + width, 0.0, z_offset + width⟩,
    ⟨x_offset, 0.0, z_offset + width⟩,
    ⟨x_offset, 0.0, z_offset⟩,

    ⟨x_offset, 0.0, z_offset + width⟩,
    ⟨x_offset + width, 0.0, z_offset⟩,
    ⟨x_offset + width, 0.0, z_offset + width⟩,
    ⟨x_offset, 0.0, z_offset + width⟩,
    ⟨x_offset + width, 0.0, z_offset⟩,
    ⟨x_offset, 0.0, z_offset⟩,

    -- Side
    ⟨x_offset, 0.0, z_offset⟩,
    ⟨x_offset, 0.0, z_offset + width⟩,
    ⟨x_offset, height, z_offset + width⟩,
    ⟨x_offset, 0.0, z_offset⟩,
    ⟨x_offset, height, z_offset + width⟩,
    ⟨x_offset, height, z_offset⟩,

    ⟨x_offset + width, height, z_offset⟩,
    ⟨x_offset, 0.0, z_offset⟩,
    ⟨x_offset, height, z_offset⟩,
    ⟨x_offset + width, height, z_offset⟩,
    ⟨x_offset + width, 0.0, z_offset⟩,
    ⟨x_offset, 0.0, z_offset⟩,

    ⟨x_offset, height, z_offset + width⟩,
    ⟨x_offset, 0.0, z_offset + width⟩,
    ⟨x_offset + width, 0.0, z_offset + width⟩,
    ⟨x_offset + width, height, z_offset + width⟩,
    ⟨x_offset, height, z_offset + width⟩,
    ⟨x_offset + width, 0.0, z_offset + width⟩,

    ⟨x_offset + width, height, z_offset + width⟩,
    ⟨x_offset + width, 0.0, z_offset⟩,
    ⟨x_offset + width, height, z_offset⟩,
    ⟨x_offset + width, 0.0, z_offset⟩,
    ⟨x_offset + width, height, z_offset + width⟩,
    ⟨x_offset + width, 0.0, z_offset + width⟩,

    -- Top
    ⟨x_offset + width, height, z_offset + width⟩,
    ⟨x_offset + width, height, z_offset⟩,
    ⟨x_offset, height, z_offset⟩,
    ⟨x_offset + width, height, z_offset + width⟩,
    ⟨x_offset, height, z_offset⟩,
    ⟨x_offset, height, z_offset + width⟩,

    ⟨x_offset, height, z_offset + width⟩,
    ⟨x_offset + width, height, z_offset⟩,
    ⟨x_offset, height, z_offset⟩,
    ⟨x_offset + width, height, z_offset⟩,
    ⟨x_offset + width, height, z_offset + width⟩,
    ⟨x_offset, height, z_offset + width⟩
  ]

/-- The colour list assigned to `m_color_buffer_data` by `draw_bar`. -/
def barColors (red green blue sideMlpy1 sideMlpy2 sideMlpy3 sideMlpy4 : ℚ) : List vec3 :=
  [
    -- Bottom
    ⟨red, green, blue⟩,
    ⟨red, green, blue⟩,
    ⟨red, green, blue⟩,
    ⟨red, green, blue⟩,
    ⟨red, green, blue⟩,
    ⟨red, green, blue⟩,

    ⟨red, green, blue⟩,
    ⟨red, green, blue⟩,
    ⟨red, green, blue⟩,
    ⟨red, green, blue⟩,
    ⟨red, green, blue⟩,
    ⟨red, green, blue⟩,

    -- Side
    ⟨red * sideMlpy1, green * sideMlpy1, blue * sideMlpy1⟩,
    ⟨red * sideMlpy1, green * sideMlpy1, blue * sideMlpy1⟩,
    ⟨red * sideMlpy1, green * sideMlpy1, blue * sideMlpy1⟩,
    ⟨red * sideMlpy1, green * sideMlpy1, blue * sideMlpy1⟩,
    ⟨red * sideMlpy1, green * sideMlpy1, blue * sideMlpy1⟩,
    ⟨red * sideMlpy1, green * sideMlpy1, blue * sideMlpy1⟩,

    ⟨red * sideMlpy2, green * sideMlpy2, blue * sideMlpy2⟩,
    ⟨red * sideMlpy2, green * sideMlpy2, blue * sideMlpy2⟩,
    ⟨red * sideMlpy2, green * sideMlpy2, blue * sideMlpy2⟩,
    ⟨red * sideMlpy2, green * sideMlpy2, blue * sideMlpy2⟩,
    ⟨red * sideMlpy2, green * sideMlpy2, blue * sideMlpy2⟩,
    ⟨red * sideMlpy2, green * sideMlpy2, blue * sideMlpy2⟩,

    ⟨red * sideMlpy3, green * sideMlpy3, blue * sideMlpy3⟩,
    ⟨red * sideMlpy3, green * sideMlpy3, blue * sideMlpy3⟩,
    ⟨red * sideMlpy3, green * sideMlpy3, blue * sideMlpy3⟩,
    ⟨red * sideMlpy3, green * sideMlpy3, blue * sideMlpy3⟩,
    ⟨red * sideMlpy3, green * sideMlpy3, blue * sideMlpy3⟩,
    ⟨red * sideMlpy3, green * sideMlpy3, blue * sideMlpy3⟩,

    ⟨red * sideMlpy4, green * sideMlpy4, blue * sideMlpy4⟩,
    ⟨red * sideMlpy4, green * sideMlpy4, blue * sideMlpy4⟩,
    ⟨red * sideMlpy4, green * sideMlpy4, blue * sideMlpy4⟩,
    ⟨red * sideMlpy4, green * sideMlpy4, blue * sideMlpy4⟩,
    ⟨red * sideMlpy4, green * sideMlpy4, blue * sideMlpy4⟩,
    ⟨red * sideMlpy4, green * sideMlpy4, blue * sideMlpy4⟩,

    -- Top
    ⟨red, green, blue⟩,
    ⟨red, green, blue⟩,
    ⟨red, green, blue⟩,
    ⟨red, green, blue⟩,
    ⟨red, green, blue⟩,
    ⟨red, green, blue⟩,

    ⟨red, green, blue⟩,
    ⟨red, green, blue⟩,
    ⟨red, green, blue⟩,
    ⟨red, green, blue⟩,
    ⟨red, green, blue⟩,
    ⟨red, green, blue⟩
  ]

/-- The method `CVisualizationSpectrum::draw_bar`: it fills the two buffers and
issues one draw call, `glDrawArrays(m_mode, 0, m_vertex_buffer_data.size())`. -/
def CVisualizationSpectrum.draw_bar (s : CVisualizationSpectrum)
    (x_offset z_offset height red green blue : ℚ) : CVisualizationSpectrum × DrawCall :=
  let width : ℚ := 0.1
  let vertices : List vec3 := barVertices x_offset z_offset height width
  let sideMlpy : ℚ × ℚ × ℚ × ℚ :=
    if s.m_mode = GLenum.GL_TRIANGLES then (0.5, 0.25, 0.75, 0.5) else (1.0, 1.0, 1.0, 1.0)
  let colors : List vec3 :=
    barColors red green blue sideMlpy.1 sideMlpy.2.1 sideMlpy.2.2.1 sideMlpy.2.2.2
  ({ s with m_vertex_buffer_data := vertices, m_color_buffer_data := colors },
    { mode := s.m_mode, count := vertices.length, vertices := vertices, colors := colors })

/-- The colour computed by the `switch (m_bar_color_type)` of `draw_all_bars` for
column `x`, with `r_base` and `b_base` of the current row. -/
def barColor (m_bar_color_type : Int) (x : Nat) (r_base b_base : ℚ) : ℚ × ℚ × ℚ :=
  if m_bar_color_type = 2 then
    (1.0 - ((x : ℚ) - (NUM_BARS : ℚ)) / (NUM_BARS : ℚ),
      ((x : ℚ) - (NUM_BARS : ℚ)) / (NUM_BARS : ℚ), 0.0)
  else if m_bar_color_type = 1 then (1, 0, 0)
  else
    (r_base - ((x : ℚ) * (r_base / (NUM_BARS : ℚ))), (x : ℚ) * (1.0 / (NUM_BARS : ℚ)), b_base)

/-- The method `CVisualizationSpectrum::draw_all_bars`: the draw calls are
collected in the order they are issued. -/
def CVisualizationSpectrum.draw_all_bars (s : CVisualizationSpectrum) :
    CVisualizationSpectrum × List DrawCall :=
  (List.range NUM_BARS).foldl
    (fun st (y : Nat) =>
      let y_offset : ℚ := -1.6 + (((NUM_BARS - y : Nat) : ℚ) * 0.2)
      let b_base : ℚ := (y : ℚ) * (1.0 / (NUM_BARS : ℚ))
      let r_base : ℚ := 1.0 - b_base
      (List.range NUM_BARS).foldl
        (fun st (x : Nat) =>
          let x_offset : ℚ := -1.6 + ((x : ℚ) * 0.2)
          let rgb := barColor st.1.m_bar_color_type x r_base b_base
          let r := st.1.draw_bar x_offset y_offset (st.1.m_heights y x) rgb.1 rgb.2.1 rgb.2.2
          (r.1, st.2 ++ [r.2]))
        st)
    (s, [])

/-- The method `CVisualizationSpectrum::Render`. -/
def CVisualizationSpectrum.Render (s : CVisualizationSpectrum) :
    CVisualizationSpectrum × List DrawCall :=
  if !s.m_startOK then (s, [])
  else
    let x1 : ℚ := s.m_x_angle + s.m_x_speed
    let m_x_angle : ℚ := if x1 ≥ 360.0 then x1 - 360.0 else x1
    let y1 : ℚ := s.m_y_angle + s.m_y_speed
    let m_y_angle : ℚ :=
      if s.m_y_fixedAngle < 0.0 then (if y1 ≥ 360.0 then y1 - 360.0 else y1)
      else s.m_y_fixedAngle
    let z1 : ℚ := s.m_z_angle + s.m_z_speed
    let m_z_angle : ℚ := if z1 ≥ 360.0 then z1 - 360.0 else z1
    CVisualizationSpectrum.draw_all_bars
      { s with m_x_angle := m_x_angle, m_y_angle := m_y_angle, m_z_angle := m_z_angle }

/-! ## Sequences of calls -/

/-- One call of the host on the component, with its arguments and, for `Start`,
the answers of the shader services and of the GL. -/
inductive Call where
  | Start (channels samplesPerSec bitsPerSample : Int) (songName : String)
      (LoadShaderFiles CompileAndLink : Bool) (glGenBuffers : Nat × Nat)
  | Stop
  | Render
  | AudioData (pAudioData : Nat → ℚ) (iAudioDataLength : Int) (pFreqData : Nat → ℚ)
      (iFreqDataLength : Int)
  | GetInfo
  | SetSetting (settingName : String) (settingValue : CSettingValue)

/-- The state of the component after one call. -/
def step (env : Env) (s : CVisualizationSpectrum) : Call → CVisualizationSpectrum
  | Call.Start c r b n l k g => (s.Start env c r b n l k g).2.1
  | Call.Stop => s.Stop env
  | Call.Render => s.Render.1
  | Call.AudioData a al f fl => (s.AudioData a al f fl).1
  | Call.GetInfo => s
  | Call.SetSetting n v => (s.SetSetting env n v).2

/-- The state of the component after a sequence of calls. -/
def run (env : Env) (s : CVisualizationSpectrum) (calls : List Call) : CVisualizationSpectrum :=
  calls.foldl (step env) s

/-! ## Reading the output of rendering -/

/-- The draw call issued by the body of the inner loop of `draw_all_bars` for the
row `y` and the column `x`: the offsets, the base colours and the colour are
computed as in the loops, the height is `m_heights[y][x]`. -/
def barCall (s : CVisualizationSpectrum) (y x : Nat) : DrawCall :=
  let y_offset : ℚ := -1.6 + (((NUM_BARS - y : Nat) : ℚ) * 0.2)
  let b_base : ℚ := (y : ℚ) * (1.0 / (NUM_BARS : ℚ))
  let r_base : ℚ := 1.0 - b_base
  let x_offset : ℚ := -1.6 + ((x : ℚ) * 0.2)
  let rgb := barColor s.m_bar_color_type x r_base b_base
  (s.draw_bar x_offset y_offset (s.m_heights y x) rgb.1 rgb.2.1 rgb.2.2).2

/-- The body of the inner loop of `draw_all_bars` in the row `y`, as a function of
the loop state (the component and the calls issued so far) and the column `x`. -/
def drawBarStep (y : Nat) (st : CVisualizationSpectrum × List DrawCall) (x : Nat) :
    CVisualizationSpectrum × List DrawCall :=
  let y_offset : ℚ := -1.6 + (((NUM_BARS - y : Nat) : ℚ) * 0.2)
  let b_base : ℚ := (y : ℚ) * (1.0 / (NUM_BARS : ℚ))
  let r_base : ℚ := 1.0 - b_base
  let x_offset : ℚ := -1.6 + ((x : ℚ) * 0.2)
  let rgb := barColor st.1.m_bar_color_type x r_base b_base
  let r := st.1.draw_bar x_offset y_offset (st.1.m_heights y x) rgb.1 rgb.2.1 rgb.2.2
  (r.1, st.2 ++ [r.2])

/-- The triangles that `glDrawArrays(GL_TRIANGLES, 0, n)` reads from a vertex
array: the consecutive triples of vertices. -/
def triangles : List vec3 → List (vec3 × vec3 × vec3)
  | a :: b :: c :: rest => (a, b, c) :: triangles rest
  | _ => []

/-- The six faces of the cuboid of a bar, named by the plane they lie in. -/
inductive Face where
  | bottom
  | top
  | xLow
  | xHigh
  | zLow
  | zHigh
  deriving DecidableEq

/-- A vertex lies in the plane of a face of the bar at `(x_offset, z_offset)` with
the given height and width. -/
def onFace (x_offset z_offset height width : ℚ) : Face → vec3 → Bool
  | Face.bottom, v => decide (v.y = 0)
  | Face.top, v => decide (v.y = height)
  | Face.xLow, v => decide (v.x = x_offset)
  | Face.xHigh, v => decide (v.x = x_offset + width)
  | Face.zLow, v => decide (v.z = z_offset)
  | Face.zHigh, v => decide (v.z = z_offset + width)

/-- The triangles of a list whose three vertices lie in the plane of a face. -/
def trianglesOn (x_offset z_offset height width : ℚ) (f : Face)
    (ts : List (vec3 × vec3 × vec3)) : List (vec3 × vec3 × vec3) :=
  ts.filter (fun t =>
    onFace x_offset z_offset height width f t.1
      && onFace x_offset z_offset height width f t.2.1
      && onFace x_offset z_offset height width f t.2.2)

/-- A call does not configure a `rotation_angle` above `bound`: every call but
`SetSetting("rotation_angle", v)` with `v` above the bound. -/
def rotationAngleAtMost (bound : Int) : Call → Bool
  | Call.SetSetting settingName settingValue =>
    if settingName = "rotation_angle" then decide (settingValue.GetInt ≤ bound) else true
  | _ => true

/-! ## Audio inputs given as sequences -/

/-- The memory behind a pointer to the samples of the sequence `f`: the offset
`i` holds the sample `i` of `f`; the offsets from the length of `f` on lie outside
the buffer and hold 0 here. -/
def bufferOf (f : List ℚ) : Nat → ℚ :=
  fun i => f.getD i 0

/-- The call `AudioData(pAudioData, iAudioDataLength, f, n)` for an input made of
the two PCM arguments and the frequency sequence `f`, `n` being the length of `f`. -/
def audioCall (input : (Nat → ℚ) × Int × List ℚ) : Call :=
  Call.AudioData input.1 input.2.1 (bufferOf input.2.2) (input.2.2.length : Int)

/-- The new row as the specification states it, column by column: the sentinel
-1 when `f` has fewer than 16 samples, and otherwise the sum of the bucket
`f[col * b .. (col + 1) * b - 1]` with `b = length / 16`. -/
def newRow (f : List ℚ) (col : Nat) : ℚ :=
  if f.length < 16 then -1
  else ((f.drop (col * (f.length / 16))).take (f.length / 16)).sum

/-- The point of a face of the bar with the parameters `u` and `v` along the two
edges of the face: the face is the set of these points for `u` and `v` in
`[0, 1]`. -/
def facePoint (x_offset z_offset height width : ℚ) : Face → ℚ → ℚ → vec3
  | Face.bottom, u, v => ⟨x_offset + u * width, 0, z_offset + v * width⟩
  | Face.top, u, v => ⟨x_offset + u * width, height, z_offset + v * width⟩
  | Face.xLow, u, v => ⟨x_offset, u * height, z_offset + v * width⟩
  | Face.xHigh, u, v => ⟨x_offset + width, u * height, z_offset + v * width⟩
  | Face.zLow, u, v => ⟨x_offset + u * width, v * height, z_offset⟩
  | Face.zHigh, u, v => ⟨x_offset + u * width, v * height, z_offset + width⟩

/-- A point lies in a triangle: it is a combination of the three vertices with
weights that are not negative and add up to 1. -/
def inTriangle (p : vec3) (t : vec3 × vec3 × vec3) : Prop :=
  ∃ a b c : ℚ, 0 ≤ a ∧ 0 ≤ b ∧ 0 ≤ c ∧ a + b + c = 1
    ∧ p.x = a * t.1.x + b * t.2.1.x + c * t.2.2.x
    ∧ p.y = a * t.1.y + b * t.2.1.y + c * t.2.2.y
    ∧ p.z = a * t.1.z + b * t.2.1.z + c * t.2.2.z

/-! ## Concrete inputs -/

/-- A sample environment: a desktop GL build, a host where `pointsize` is 3 and
every other setting is 0, and a `log` that answers `5.545177` at 256. -/
def exampleEnv : Env :=
  { HAS_GL := true
    GetSettingInt := fun name => if name = "pointsize" then 3 else 0
    log := fun x => if x = 256 then 5.545177 else 0 }

/-- A sample component: freshly constructed in `exampleEnv` over an all-zero array. -/
def exampleState : CVisualizationSpectrum :=
  (CVisualizationSpectrum.ctor exampleEnv (fun _ _ => 0)).1

/-! ## Lemmas on the loops of AudioData -/

theorem shiftRow_fold (h : Grid) (y : Nat) (hy : 1 ≤ y) (n : Nat) (y' x' : Nat) :
    (List.range n).foldl (fun g x => setCell g y x (g (y - 1) x)) h y' x'
      = if y' = y ∧ x' < n then h (y - 1) x' else h y' x' := by
  induction n generalizing y' x' with
  | zero => simp
  | succ n ih =>
    rw [List.range_succ, List.foldl_append]
    simp only [List.foldl_cons, List.foldl_nil, setCell]
    rw [ih, ih]
    have hne : ¬ (y - 1 = y) := by omega
    by_cases h1 : y' = y
    · by_cases h2 : x' = n
      · subst h1 h2; simp [hne]
      · have : x' < n + 1 ↔ x' < n := by omega
        simp [h1, h2, this]
    · simp [h1]

theorem shiftRow_apply (h : Grid) (y : Nat) (hy : 1 ≤ y) (y' x' : Nat) :
    shiftRow h y y' x' = if y' = y ∧ x' < NUM_BARS then h (y - 1) x' else h y' x' :=
  shiftRow_fold h y hy NUM_BARS y' x'

theorem shiftRows_fst (y : Nat) (h : Grid) : (shiftRows y h).1 = 0 := by
  induction y generalizing h with
  | zero => rfl
  | succ y ih => simp [shiftRows, ih]

theorem shiftRows_apply (y : Nat) (h : Grid) (y' x' : Nat) :
    (shiftRows y h).2 y' x'
      = if 1 ≤ y' ∧ y' ≤ y ∧ x' < NUM_BARS then h (y' - 1) x' else h y' x' := by
  induction y generalizing h y' x' with
  | zero =>
    have : ¬ (1 ≤ y' ∧ y' ≤ 0 ∧ x' < NUM_BARS) := by omega
    rw [if_neg this]; rfl
  | succ y ih =>
    simp only [shiftRows]
    rw [ih]
    rw [shiftRow_apply h (y + 1) (by omega), shiftRow_apply h (y + 1) (by omega)]
    by_cases hx : x' < NUM_BARS
    · by_cases h1 : 1 ≤ y' ∧ y' ≤ y
      · have e1 : ¬ (y' - 1 = y + 1) := by omega
        have e2 : 1 ≤ y' ∧ y' ≤ y + 1 := by omega
        simp [h1, hx, e1, e2]
      · by_cases h2 : y' = y + 1
        · subst h2; simp [hx]
        · have e2 : ¬ (1 ≤ y' ∧ y' ≤ y + 1) := by omega
          have e3 : ¬ (1 ≤ y' ∧ y' ≤ y ∧ x' < NUM_BARS) := by omega
          have e4 : ¬ (1 ≤ y' ∧ y' ≤ y + 1 ∧ x' < NUM_BARS) := by omega
          simp [h2, e3, e4]
    · have e3 : ¬ (1 ≤ y' ∧ y' ≤ y ∧ x' < NUM_BARS) := by omega
      have e4 : ¬ (1 ≤ y' ∧ y' ≤ y + 1 ∧ x' < NUM_BARS) := by omega
      simp [hx, e3, e4]

theorem fillSentinel_fold (h : Grid) (y : Nat) (n : Nat) (y' x' : Nat) :
    (List.range n).foldl (fun g x => setCell g y x (-1.0)) h y' x'
      = if y' = y ∧ x' < n then -1 else h y' x' := by
  induction n generalizing y' x' with
  | zero => simp
  | succ n ih =>
    rw [List.range_succ, List.foldl_append]
    simp only [List.foldl_cons, List.foldl_nil, setCell]
    rw [ih]
    by_cases h1 : y' = y
    · by_cases h2 : x' = n
      · subst h1 h2; norm_num
      · have : x' < n + 1 ↔ x' < n := by omega
        simp [h1, h2, this]
    · simp [h1]

theorem fillSentinel_apply (h : Grid) (y : Nat) (y' x' : Nat) :
    fillSentinel h y y' x' = if y' = y ∧ x' < NUM_BARS then -1 else h y' x' :=
  fillSentinel_fold h y NUM_BARS y' x'

theorem sumBucket_fold (pFreqData : Nat → ℚ) (x : Nat) (n : Nat) (g : Grid) (p : Nat) :
    ((List.range n).foldl
        (fun (st : Grid × Nat) _ => (setCell st.1 0 x (st.1 0 x + pFreqData st.2), st.2 + 1))
        (g, p)).2 = p + n
    ∧ ∀ y' x', ((List.range n).foldl
        (fun (st : Grid × Nat) _ => (setCell st.1 0 x (st.1 0 x + pFreqData st.2), st.2 + 1))
        (g, p)).1 y' x'
      = if y' = 0 ∧ x' = x then g 0 x + ∑ i ∈ Finset.range n, pFreqData (p + i)
        else g y' x' := by
  induction n with
  | zero =>
    refine ⟨rfl, fun y' x' => ?_⟩
    by_cases h1 : y' = 0 ∧ x' = x
    · obtain ⟨rfl, rfl⟩ := h1; simp
    · simp [h1]
  | succ n ih =>
    obtain ⟨ih2, ih1⟩ := ih
    rw [List.range_succ, List.foldl_append]
    simp only [List.foldl_cons, List.foldl_nil]
    refine ⟨by rw [ih2]; omega, fun y' x' => ?_⟩
    simp only [setCell]
    rw [ih1 0 x, ih1 y' x', ih2]
    by_cases h1 : y' = 0 ∧ x' = x
    · simp only [h1, and_self, if_true]
      rw [Finset.sum_range_succ]; ring
    · simp [h1]

theorem sumBucket_snd (pFreqData : Nat → ℚ) (d : Int) (x : Nat) (st : Grid × Nat) :
    (sumBucket pFreqData d x st).2 = st.2 + d.toNat :=
  (sumBucket_fold pFreqData x d.toNat st.1 st.2).1

theorem sumBucket_apply (pFreqData : Nat → ℚ) (d : Int) (x : Nat) (st : Grid × Nat)
    (y' x' : Nat) :
    (sumBucket pFreqData d x st).1 y' x'
      = if y' = 0 ∧ x' = x then st.1 0 x + ∑ i ∈ Finset.range d.toNat, pFreqData (st.2 + i)
        else st.1 y' x' :=
  (sumBucket_fold pFreqData x d.toNat st.1 st.2).2 y' x'

theorem fillRow_fold (pFreqData : Nat → ℚ) (d : Int) (h : Grid) (n : Nat) :
    ((List.range n).foldl
        (fun (st : Grid × Nat) x => sumBucket pFreqData d x (setCell st.1 0 x 0.0, st.2))
        (h, 0)).2 = n * d.toNat
    ∧ ∀ y' x', ((List.range n).foldl
        (fun (st : Grid × Nat) x => sumBucket pFreqData d x (setCell st.1 0 x 0.0, st.2))
        (h, 0)).1 y' x'
      = if y' = 0 ∧ x' < n then ∑ i ∈ Finset.range d.toNat, pFreqData (x' * d.toNat + i)
        else h y' x' := by
  induction n with
  | zero => exact ⟨by simp, fun y' x' => by simp⟩
  | succ n ih =>
    obtain ⟨ih2, ih1⟩ := ih
    rw [List.range_succ, List.foldl_append]
    simp only [List.foldl_cons, List.foldl_nil]
    refine ⟨by rw [sumBucket_snd, ih2]; ring, fun y' x' => ?_⟩
    rw [sumBucket_apply]
    simp only [setCell, ih2]
    rw [ih1 y' x']
    by_cases h1 : y' = 0
    · by_cases h2 : x' = n
      · subst h1 h2; norm_num
      · have : x' < n + 1 ↔ x' < n := by omega
        simp [h1, h2, this]
    · simp [h1]

theorem fillRow_apply (pFreqData : Nat → ℚ) (d : Int) (h : Grid) (y' x' : Nat) :
    (fillRow pFreqData d h).1 y' x'
      = if y' = 0 ∧ x' < NUM_BARS
        then ∑ i ∈ Finset.range d.toNat, pFreqData (x' * d.toNat + i)
        else h y' x' :=
  (fillRow_fold pFreqData d h NUM_BARS).2 y' x'

/-- The content of the array after `AudioData`, cell by cell. -/
theorem AudioData_heights (s : CVisualizationSpectrum) (pAudioData : Nat → ℚ)
    (iAudioDataLength : Int) (pFreqData : Nat → ℚ) (iFreqDataLength : Int) (y x : Nat)
    (hx : x < NUM_BARS) :
    (s.AudioData pAudioData iAudioDataLength pFreqData iFreqDataLength).1.m_heights y x
      = if y = 0 then
          (if toUnsigned iFreqDataLength < NUM_BARS then -1
           else ∑ i ∈ Finset.range (toInt (toUnsigned iFreqDataLength / NUM_BARS)).toNat,
              pFreqData (x * (toInt (toUnsigned iFreqDataLength / NUM_BARS)).toNat + i))
        else if y ≤ 15 then s.m_heights (y - 1) x
        else s.m_heights y x := by
  unfold CVisualizationSpectrum.AudioData
  by_cases hlt : toUnsigned iFreqDataLength < NUM_BARS
  · simp only [hlt, if_true]
    rw [fillSentinel_apply, shiftRows_fst, shiftRows_apply]
    by_cases h0 : y = 0
    · simp [h0, hx]
    · have e : 1 ≤ y := by omega
      by_cases h15 : y ≤ 15
      · simp [h0, hx, e, h15]
      · simp [h0, hx, e, h15]
  · simp only [hlt, if_false]
    rw [fillRow_apply, shiftRows_apply]
    by_cases h0 : y = 0
    · simp [h0, hx]
    · have e : 1 ≤ y := by omega
      by_cases h15 : y ≤ 15
      · simp [h0, hx, e, h15]
      · simp [h0, hx, e, h15]

/-! ## Machine integers in AudioData -/

theorem toUnsigned_natCast (n : Nat) (hint : n < 2 ^ 31) : toUnsigned (n : Int) = n := by
  unfold toUnsigned
  have h : ((n : Int)) % 2 ^ 32 = (n : Int) := by
    apply Int.emod_eq_of_lt
    · exact Int.ofNat_nonneg n
    · have : (n : Int) < 2 ^ 31 := by exact_mod_cast hint
      omega
  rw [h]; exact Int.toNat_natCast n

theorem toInt_small (u : Nat) (hu : u < 2 ^ 31) : toInt u = (u : Int) := by
  unfold toInt
  have h : u % 2 ^ 32 = u := Nat.mod_eq_of_lt (by omega)
  rw [h, if_pos hu]

theorem divider_natCast (n : Nat) (hint : n < 2 ^ 31) :
    (toInt (toUnsigned (n : Int) / NUM_BARS)).toNat = n / 16 := by
  rw [toUnsigned_natCast n hint, toInt_small]
  · exact Int.toNat_natCast _
  · have : n / NUM_BARS ≤ n := Nat.div_le_self n NUM_BARS
    omega

/-! ## The history buffer -/

/-- C1. History shift: after `AudioData`, whatever the length argument is, every
cell of the rows 1 to 15 holds what the cell above it held before the call; and
the old row 15 is discarded: two components that agree on the rows 0 to 14 have
the same array after the call. -/
theorem AudioData_history_shift (s : CVisualizationSpectrum) (pAudioData : Nat → ℚ)
    (iAudioDataLength : Int) (pFreqData : Nat → ℚ) (iFreqDataLength : Int) :
    (∀ y x, 1 ≤ y → y ≤ 15 → x ≤ 15 →
      (s.AudioData pAudioData iAudioDataLength pFreqData iFreqDataLength).1.m_heights y x
        = s.m_heights (y - 1) x)
    ∧ (∀ s' : CVisualizationSpectrum,
        (∀ y x, y ≤ 14 → x ≤ 15 → s'.m_heights y x = s.m_heights y x) →
        ∀ y x, y ≤ 15 → x ≤ 15 →
          (s'.AudioData pAudioData iAudioDataLength pFreqData iFreqDataLength).1.m_heights y x
            = (s.AudioData pAudioData iAudioDataLength pFreqData iFreqDataLength).1.m_heights
                y x) := by
  refine ⟨fun y x hy1 hy hx => ?_, fun s' hs y x hy hx => ?_⟩
  · rw [AudioData_heights s _ _ _ _ y x (by show x < 16; omega)]
    have h0 : ¬ (y = 0) := by omega
    simp [h0, hy]
  · rw [AudioData_heights s _ _ _ _ y x (by show x < 16; omega),
      AudioData_heights s' _ _ _ _ y x (by show x < 16; omega)]
    by_cases h0 : y = 0
    · simp [h0]
    · simp only [h0, if_false, hy, if_true]
      exact hs (y - 1) x (by omega) hx

/-- The history shift on a sample call: with 3 samples announced, cell `[1][0]`
takes the former value of cell `[0][0]`. -/
theorem AudioData_history_shift_witness :
    (exampleState.AudioData (fun _ => 0) 0 (fun _ => 1) 3).1.m_heights 1 0
      = exampleState.m_heights 0 0 :=
  (AudioData_history_shift exampleState (fun _ => 0) 0 (fun _ => 1) 3).1 1 0
    (by decide) (by decide) (by decide)

/-- C2. Bucket sum: for a length `n` with `16 ≤ n` (an `int`, so below `2^31`),
after `AudioData` every column `col` of row 0 holds the plain sum of the samples
`col * (n / 16)` to `(col + 1) * (n / 16) - 1`, without a division by the bucket
size; the samples at index `16 * (n / 16)` and beyond do not influence row 0; and
on an all-zero array 256 samples equal to 1 give `m_heights[0][0] = 16` with the
rows 1 to 15 still zero. -/
theorem AudioData_bucket_sum :
    (∀ (s : CVisualizationSpectrum) (pAudioData : Nat → ℚ) (iAudioDataLength : Int)
        (pFreqData : Nat → ℚ) (n : Nat), 16 ≤ n → n < 2 ^ 31 →
        ∀ col, col < 16 →
          (s.AudioData pAudioData iAudioDataLength pFreqData n).1.m_heights 0 col
            = ∑ i ∈ Finset.Ico (col * (n / 16)) ((col + 1) * (n / 16)), pFreqData i)
    ∧ (∀ (s : CVisualizationSpectrum) (pAudioData : Nat → ℚ) (iAudioDataLength : Int)
        (pFreqData pFreqData' : Nat → ℚ) (n : Nat), 16 ≤ n → n < 2 ^ 31 →
        (∀ i, i < 16 * (n / 16) → pFreqData' i = pFreqData i) →
        ∀ col, col < 16 →
          (s.AudioData pAudioData iAudioDataLength pFreqData' n).1.m_heights 0 col
            = (s.AudioData pAudioData iAudioDataLength pFreqData n).1.m_heights 0 col)
    ∧ (∀ (s : CVisualizationSpectrum) (pAudioData : Nat → ℚ) (iAudioDataLength : Int),
        (∀ y x, y ≤ 15 → x ≤ 15 → s.m_heights y x = 0) →
        (s.AudioData pAudioData iAudioDataLength (fun _ => 1) 256).1.m_heights 0 0 = 16
        ∧ ∀ y x, 1 ≤ y → y ≤ 15 → x ≤ 15 →
          (s.AudioData pAudioData iAudioDataLength (fun _ => 1) 256).1.m_heights y x = 0) := by
  have key : ∀ (s : CVisualizationSpectrum) (pAudioData : Nat → ℚ) (iAudioDataLength : Int)
      (pFreqData : Nat → ℚ) (n : Nat), 16 ≤ n → n < 2 ^ 31 → ∀ col, col < 16 →
      (s.AudioData pAudioData iAudioDataLength pFreqData n).1.m_heights 0 col
        = ∑ i ∈ Finset.Ico (col * (n / 16)) ((col + 1) * (n / 16)), pFreqData i := by
    intro s pA al pF n hn hint col hcol
    rw [AudioData_heights s pA al pF n 0 col hcol]
    have hge : ¬ (toUnsigned (n : Int) < NUM_BARS) := by
      rw [toUnsigned_natCast n hint]; show ¬ (n < 16); omega
    simp only [if_true, hge, if_false]
    rw [divider_natCast n hint, Finset.sum_Ico_eq_sum_range]
    have e : (col + 1) * (n / 16) - col * (n / 16) = n / 16 := by
      rw [Nat.add_mul, Nat.one_mul, Nat.add_sub_cancel_left]
    rw [e]
  refine ⟨key, ?_, ?_⟩
  · intro s pA al pF pF' n hn hint hagree col hcol
    rw [key s pA al pF n hn hint col hcol, key s pA al pF' n hn hint col hcol]
    apply Finset.sum_congr rfl
    intro i hi
    apply hagree
    have hi2 := (Finset.mem_Ico.mp hi).2
    calc i < (col + 1) * (n / 16) := hi2
      _ ≤ 16 * (n / 16) := Nat.mul_le_mul_right _ (by omega)
  · intro s pA al hzero
    refine ⟨?_, fun y x hy1 hy hx => ?_⟩
    · have h := key s pA al (fun _ => 1) 256 (by decide) (by decide) 0 (by decide)
      rw [show ((256 : Nat) : Int) = 256 from rfl] at h
      rw [h]; simp
    · rw [AudioData_heights s pA al _ _ y x (by show x < 16; omega)]
      have h0 : ¬ (y = 0) := by omega
      simp only [h0, if_false, hy, if_true]
      exact hzero (y - 1) x (by omega) hx

/-- The bucket sum on a sample call: 256 samples equal to 1 on the all-zero
array of the sample component give 16 in cell `[0][0]`. -/
theorem AudioData_bucket_sum_witness :
    (exampleState.AudioData (fun _ => 0) 0 (fun _ => 1) 256).1.m_heights 0 0 = 16
    ∧ (exampleState.AudioData (fun _ => 0) 0 (fun i => (i : ℚ)) (40 : Nat)).1.m_heights 0 15
        = ∑ i ∈ (Finset.Ico (15 * (40 / 16)) ((15 + 1) * (40 / 16)) : Finset Nat), (i : ℚ) :=
  ⟨(AudioData_bucket_sum.2.2 exampleState (fun _ => 0) 0 (fun _ _ _ _ => rfl)).1,
    AudioData_bucket_sum.1 exampleState (fun _ => 0) 0 (fun i => (i : ℚ)) 40
      (by decide) (by decide) 15 (by decide)⟩

/-- The error branch of `AudioData` on the lengths 0 to 15: the new row is the
sentinel row and the error is logged. -/
theorem AudioData_insufficient (s : CVisualizationSpectrum) (pAudioData : Nat → ℚ)
    (iAudioDataLength : Int) (pFreqData : Nat → ℚ) (iFreqDataLength : Int)
    (h0 : 0 ≤ iFreqDataLength) (h16 : iFreqDataLength < 16) :
    (∀ x, x ≤ 15 →
      (s.AudioData pAudioData iAudioDataLength pFreqData iFreqDataLength).1.m_heights 0 x = -1)
    ∧ (s.AudioData pAudioData iAudioDataLength pFreqData iFreqDataLength).2
        = [⟨AddonLog.ADDON_LOG_ERROR,
            "iFreqDataLength=%d but we expected a number greater than: %d",
            [iFreqDataLength, 16]⟩] := by
  have hlt : toUnsigned iFreqDataLength < NUM_BARS := by
    obtain ⟨n, rfl⟩ := Int.eq_ofNat_of_zero_le h0
    rw [toUnsigned_natCast n (by omega)]
    show n < 16
    omega
  refine ⟨fun x hx => ?_, ?_⟩
  · rw [AudioData_heights s _ _ _ _ 0 x (by show x < 16; omega)]
    simp [hlt]
  · unfold CVisualizationSpectrum.AudioData
    simp [hlt]

/-- C3, the code at the length -1: the comparison with the unsigned `NUM_BARS`
converts -1 to 4294967295, so the error branch is not taken; the only log entry is
the debug entry, the bucket size is 268435455, and over a memory of zeros the
cells of the new row hold 0, not the sentinel -1. -/
theorem AudioData_negative_length :
    toUnsigned (-1) = 4294967295
    ∧ (exampleState.AudioData (fun _ => 0) 0 (fun _ => 0) (-1)).2
        = [⟨AddonLog.ADDON_LOG_DEBUG,
            "iAudioDataLength=%d, iFreqDataLength=%d, dividerOfFFTSamples=%d",
            [0, -1, 268435455]⟩]
    ∧ (exampleState.AudioData (fun _ => 0) 0 (fun _ => 0) (-1)).1.m_heights 0 0 = 0
    ∧ (exampleState.AudioData (fun _ => 0) 0 (fun _ => 0) (-1)).1.m_heights 0 0 ≠ -1 := by
  have hu : toUnsigned (-1) = 4294967295 := by decide
  have hd : toInt (4294967295 / NUM_BARS) = 268435455 := by decide
  have hdbg : exampleState.m_debugInfoAlreadyDisplayed = false := rfl
  have hnb : ¬ ((4294967295 : Nat) < NUM_BARS) := by decide
  have hcell : (exampleState.AudioData (fun _ => 0) 0 (fun _ => 0) (-1)).1.m_heights 0 0 = 0 := by
    rw [AudioData_heights exampleState _ _ _ _ 0 0 (by decide)]
    simp [hu, hnb]
  refine ⟨hu, ?_, hcell, ?_⟩
  · unfold CVisualizationSpectrum.AudioData
    simp [hu, hd, hdbg, hnb]
  · rw [hcell]; norm_num

/-! ## Frame lemmas for rendering -/

theorem foldl_invariant {α β : Type} (P : α → Prop) (f : α → β → α) (l : List β) (a : α)
    (ha : P a) (hf : ∀ a b, P a → P (f a b)) : P (l.foldl f a) := by
  induction l generalizing a with
  | nil => exact ha
  | cons b l ih => exact ih (f a b) (hf a b ha)

/-- The method `draw_bar` changes the two buffers and nothing else. -/
theorem draw_bar_frame (s : CVisualizationSpectrum) (x_offset z_offset height red green blue : ℚ) :
    (s.draw_bar x_offset z_offset height red green blue).1
      = { s with
          m_vertex_buffer_data :=
            (s.draw_bar x_offset z_offset height red green blue).1.m_vertex_buffer_data
          m_color_buffer_data :=
            (s.draw_bar x_offset z_offset height red green blue).1.m_color_buffer_data } :=
  rfl

/-- The method `draw_all_bars` changes the two buffers and nothing else. -/
theorem draw_all_bars_frame (s : CVisualizationSpectrum) :
    s.draw_all_bars.1
      = { s with
          m_vertex_buffer_data := s.draw_all_bars.1.m_vertex_buffer_data
          m_color_buffer_data := s.draw_all_bars.1.m_color_buffer_data } := by
  unfold CVisualizationSpectrum.draw_all_bars
  apply foldl_invariant
    (fun st : CVisualizationSpectrum × List DrawCall =>
      st.1 = { s with
                m_vertex_buffer_data := st.1.m_vertex_buffer_data
                m_color_buffer_data := st.1.m_color_buffer_data })
  · rfl
  · intro st y hst
    apply foldl_invariant
      (fun st : CVisualizationSpectrum × List DrawCall =>
        st.1 = { s with
                  m_vertex_buffer_data := st.1.m_vertex_buffer_data
                  m_color_buffer_data := st.1.m_color_buffer_data })
    · exact hst
    · intro st x hst
      show (st.1.draw_bar _ _ _ _ _ _).1 = _
      rw [draw_bar_frame, hst]

/-- The method `Render` leaves every member but the three angles and the two
buffers as it was. -/
theorem Render_frame (s : CVisualizationSpectrum) :
    s.Render.1
      = { s with
          m_x_angle := s.Render.1.m_x_angle
          m_y_angle := s.Render.1.m_y_angle
          m_z_angle := s.Render.1.m_z_angle
          m_vertex_buffer_data := s.Render.1.m_vertex_buffer_data
          m_color_buffer_data := s.Render.1.m_color_buffer_data } := by
  unfold CVisualizationSpectrum.Render
  by_cases hs : s.m_startOK = true
  · simp only [hs, Bool.not_true, Bool.false_eq_true, if_false]
    rw [draw_all_bars_frame]
  · have hs' : (!s.m_startOK) = true := by simpa using hs
    rw [if_pos hs']

/-- The method `AudioData` changes the array and the debug flag and nothing else. -/
theorem AudioData_frame (s : CVisualizationSpectrum) (pAudioData : Nat → ℚ)
    (iAudioDataLength : Int) (pFreqData : Nat → ℚ) (iFreqDataLength : Int) :
    (s.AudioData pAudioData iAudioDataLength pFreqData iFreqDataLength).1
      = { s with
          m_heights :=
            (s.AudioData pAudioData iAudioDataLength pFreqData iFreqDataLength).1.m_heights
          m_debugInfoAlreadyDisplayed :=
            (s.AudioData pAudioData iAudioDataLength pFreqData
              iFreqDataLength).1.m_debugInfoAlreadyDisplayed } := by
  unfold CVisualizationSpectrum.AudioData
  by_cases hlt : toUnsigned iFreqDataLength < NUM_BARS
  · simp only [hlt, if_true]
  · simp only [hlt, if_false]

/-! ## Frame lemmas for the setters -/

theorem SetBarHeightSetting_frame (env : Env) (s : CVisualizationSpectrum) (v : Int) :
    s.SetBarHeightSetting env v = { s with m_scale := (s.SetBarHeightSetting env v).m_scale } := by
  unfold CVisualizationSpectrum.SetBarHeightSetting
  split_ifs <;> rfl

theorem SetModeSetting_frame (env : Env) (s : CVisualizationSpectrum) (v : Int) :
    s.SetModeSetting env v
      = { s with
          m_mode := (s.SetModeSetting env v).m_mode
          m_pointSize := (s.SetModeSetting env v).m_pointSize } := by
  unfold CVisualizationSpectrum.SetModeSetting
  split_ifs <;> rfl

theorem SetSpeedSetting_frame (s : CVisualizationSpectrum) (v : Int) :
    s.SetSpeedSetting v = { s with m_updateLag := (s.SetSpeedSetting v).m_updateLag } := by
  unfold CVisualizationSpectrum.SetSpeedSetting
  split_ifs <;> rfl

theorem SetBarColorSetting_frame (s : CVisualizationSpectrum) (v : Int) :
    s.SetBarColorSetting v
      = { s with m_bar_color_type := (s.SetBarColorSetting v).m_bar_color_type } := by
  unfold CVisualizationSpectrum.SetBarColorSetting
  split_ifs <;> rfl

theorem SetRotationSpeedSetting_frame (s : CVisualizationSpectrum) (v : Int) :
    s.SetRotationSpeedSetting v
      = { s with m_y_speed := (s.SetRotationSpeedSetting v).m_y_speed } := by
  unfold CVisualizationSpectrum.SetRotationSpeedSetting
  split_ifs <;> rfl

@[simp] theorem SetBarHeightSetting_startOK (env : Env) (s : CVisualizationSpectrum) (v : Int) :
    (s.SetBarHeightSetting env v).m_startOK = s.m_startOK := by
  rw [SetBarHeightSetting_frame]

@[simp] theorem SetModeSetting_startOK (env : Env) (s : CVisualizationSpectrum) (v : Int) :
    (s.SetModeSetting env v).m_startOK = s.m_startOK := by
  rw [SetModeSetting_frame]

@[simp] theorem SetSpeedSetting_startOK (s : CVisualizationSpectrum) (v : Int) :
    (s.SetSpeedSetting v).m_startOK = s.m_startOK := by
  rw [SetSpeedSetting_frame]

@[simp] theorem SetBarColorSetting_startOK (s : CVisualizationSpectrum) (v : Int) :
    (s.SetBarColorSetting v).m_startOK = s.m_startOK := by
  rw [SetBarColorSetting_frame]

@[simp] theorem SetRotationSpeedSetting_startOK (s : CVisualizationSpectrum) (v : Int) :
    (s.SetRotationSpeedSetting v).m_startOK = s.m_startOK := by
  rw [SetRotationSpeedSetting_frame]

@[simp] theorem SetBarHeightSetting_updateLag (env : Env) (s : CVisualizationSpectrum) (v : Int) :
    (s.SetBarHeightSetting env v).m_updateLag = s.m_updateLag := by
  rw [SetBarHeightSetting_frame]

@[simp] theorem SetModeSetting_updateLag (env : Env) (s : CVisualizationSpectrum) (v : Int) :
    (s.SetModeSetting env v).m_updateLag = s.m_updateLag := by
  rw [SetModeSetting_frame]

@[simp] theorem SetBarColorSetting_updateLag (s : CVisualizationSpectrum) (v : Int) :
    (s.SetBarColorSetting v).m_updateLag = s.m_updateLag := by
  rw [SetBarColorSetting_frame]

@[simp] theorem SetRotationSpeedSetting_updateLag (s : CVisualizationSpectrum) (v : Int) :
    (s.SetRotationSpeedSetting v).m_updateLag = s.m_updateLag := by
  rw [SetRotationSpeedSetting_frame]

theorem SetSpeedSetting_updateLag (s : CVisualizationSpectrum) (v : Int) :
    (s.SetSpeedSetting v).m_updateLag = if 0 ≤ v ∧ v ≤ 4 then v else s.m_updateLag := by
  unfold CVisualizationSpectrum.SetSpeedSetting
  split_ifs <;> rfl

theorem ctor_startOK (env : Env) (g : Grid) :
    (CVisualizationSpectrum.ctor env g).1.m_startOK = false := by
  simp [CVisualizationSpectrum.ctor]

/-! ## The lifecycle: Stopped and Started -/

/-- C4, the claim fails for `AudioData`: the sample component is Stopped, and a
call with the length 0 writes the sentinel into cell `[0][0]`, which held 0. -/
theorem AudioData_changes_stopped_component :
    exampleState.m_startOK = false
    ∧ exampleState.m_heights 0 0 = 0
    ∧ (exampleState.AudioData (fun _ => 0) 0 (fun _ => 0) 0).1.m_heights 0 0 = -1
    ∧ (exampleState.AudioData (fun _ => 0) 0 (fun _ => 0) 0).1 ≠ exampleState := by
  have h1 : (exampleState.AudioData (fun _ => 0) 0 (fun _ => 0) 0).1.m_heights 0 0 = -1 :=
    (AudioData_insufficient exampleState (fun _ => 0) 0 (fun _ => 0) 0 (by decide)
      (by decide)).1 0 (by decide)
  refine ⟨ctor_startOK _ _, rfl, h1, fun h => ?_⟩
  rw [h] at h1
  have h2 : exampleState.m_heights 0 0 = 0 := rfl
  rw [h2] at h1
  norm_num at h1

/-- C4 (amended). While the component is Stopped, `Render` is a no-op: it returns
the component as it was and draws nothing.  `AudioData` has no test of the
started flag: on a Stopped component it leaves the camera angles and every
setting as they were (only the array and the debug flag may change), and it
updates the array exactly as on the same component Started.  The component is
Stopped after construction, after `Stop`, and after a failed `Start` of a Stopped
component. -/
theorem stopped_Render_noop_AudioData_frame :
    (∀ s : CVisualizationSpectrum, s.m_startOK = false → s.Render = (s, []))
    ∧ (∀ (s : CVisualizationSpectrum) (pAudioData : Nat → ℚ) (iAudioDataLength : Int)
        (pFreqData : Nat → ℚ) (iFreqDataLength : Int), s.m_startOK = false →
        (s.AudioData pAudioData iAudioDataLength pFreqData iFreqDataLength).1
          = { s with
              m_heights :=
                (s.AudioData pAudioData iAudioDataLength pFreqData iFreqDataLength).1.m_heights
              m_debugInfoAlreadyDisplayed :=
                (s.AudioData pAudioData iAudioDataLength pFreqData
                  iFreqDataLength).1.m_debugInfoAlreadyDisplayed })
    ∧ (∀ (s : CVisualizationSpectrum) (pAudioData : Nat → ℚ) (iAudioDataLength : Int)
        (pFreqData : Nat → ℚ) (iFreqDataLength : Int), s.m_startOK = false →
        (s.AudioData pAudioData iAudioDataLength pFreqData iFreqDataLength).1.m_heights
          = (CVisualizationSpectrum.AudioData { s with m_startOK := true } pAudioData
              iAudioDataLength pFreqData iFreqDataLength).1.m_heights)
    ∧ (∀ (env : Env) (g : Grid), (CVisualizationSpectrum.ctor env g).1.m_startOK = false)
    ∧ (∀ (env : Env) (s : CVisualizationSpectrum), (s.Stop env).m_startOK = false)
    ∧ (∀ (env : Env) (s : CVisualizationSpectrum) (channels samplesPerSec bitsPerSample : Int)
        (songName : String) (LoadShaderFiles CompileAndLink : Bool) (glGenBuffers : Nat × Nat),
        s.m_startOK = false →
        (s.Start env channels samplesPerSec bitsPerSample songName LoadShaderFiles
          CompileAndLink glGenBuffers).1 = false →
        (s.Start env channels samplesPerSec bitsPerSample songName LoadShaderFiles
          CompileAndLink glGenBuffers).2.1.m_startOK = false) := by
  refine ⟨?_, ?_, ?_, ctor_startOK, ?_, ?_⟩
  · intro s hs
    unfold CVisualizationSpectrum.Render
    simp [hs]
  · intro s pA al pF fl _
    exact AudioData_frame s pA al pF fl
  · intro s pA al pF fl _
    unfold CVisualizationSpectrum.AudioData
    by_cases hlt : toUnsigned fl < NUM_BARS
    · simp only [hlt, if_true]
    · simp only [hlt, if_false]
  · intro env s
    unfold CVisualizationSpectrum.Stop
    by_cases hs : s.m_startOK = true
    · simp [hs]
    · have hs' : s.m_startOK = false := by simpa using hs
      simp [hs']
  · intro env s c r b n l k g hs hret
    unfold CVisualizationSpectrum.Start at hret ⊢
    by_cases hf : (!l || !k) = true
    · rw [if_pos hf]; exact hs
    · rw [if_neg hf] at hret
      exact absurd hret (by simp)

/-- The amended C4 on the sample component, which is Stopped: `Render` returns
it unchanged with no draw call. -/
theorem stopped_Render_noop_AudioData_frame_witness :
    exampleState.m_startOK = false ∧ exampleState.Render = (exampleState, []) :=
  ⟨ctor_startOK _ _, stopped_Render_noop_AudioData_frame.1 exampleState (ctor_startOK _ _)⟩

/-- C9. Start: on a Stopped component, `Start` returns success and leaves the
component Started exactly when the shader files load and compile and link; when
they do not, `Start` returns failure, logs the error, and the component is the
one before the call, still Stopped, with its array, camera angles and settings. -/
theorem Start_started_iff_shaders (env : Env) (s : CVisualizationSpectrum)
    (channels samplesPerSec bitsPerSample : Int) (songName : String)
    (LoadShaderFiles CompileAndLink : Bool) (glGenBuffers : Nat × Nat)
    (hs : s.m_startOK = false) :
    (((s.Start env channels samplesPerSec bitsPerSample songName LoadShaderFiles
          CompileAndLink glGenBuffers).1 = true
        ∧ (s.Start env channels samplesPerSec bitsPerSample songName LoadShaderFiles
          CompileAndLink glGenBuffers).2.1.m_startOK = true)
      ↔ (LoadShaderFiles = true ∧ CompileAndLink = true))
    ∧ (¬ (LoadShaderFiles = true ∧ CompileAndLink = true) →
        (s.Start env channels samplesPerSec bitsPerSample songName LoadShaderFiles
          CompileAndLink glGenBuffers).1 = false
        ∧ (s.Start env channels samplesPerSec bitsPerSample songName LoadShaderFiles
          CompileAndLink glGenBuffers).2.1 = s
        ∧ (s.Start env channels samplesPerSec bitsPerSample songName LoadShaderFiles
          CompileAndLink glGenBuffers).2.1.m_startOK = false
        ∧ (s.Start env channels samplesPerSec bitsPerSample songName LoadShaderFiles
          CompileAndLink glGenBuffers).2.2
            = [⟨AddonLog.ADDON_LOG_ERROR, "Failed to create or compile shader", []⟩]) := by
  unfold CVisualizationSpectrum.Start
  cases LoadShaderFiles <;> cases CompileAndLink <;> simp [hs]

/-- The claim C9 on the sample component: with both shader answers positive
`Start` succeeds and the component is Started. -/
theorem Start_started_iff_shaders_witness :
    exampleState.m_startOK = false
    ∧ (exampleState.Start exampleEnv 2 44100 16 "song" true true (1, 2)).1 = true
    ∧ (exampleState.Start exampleEnv 2 44100 16 "song" true true (1, 2)).2.1.m_startOK = true :=
  ⟨ctor_startOK _ _,
    ((Start_started_iff_shaders exampleEnv exampleState 2 44100 16 "song" true true (1, 2)
      (ctor_startOK _ _)).1).2 ⟨rfl, rfl⟩⟩

/-- C10. Stop: from every state `Stop` leaves the component Stopped; on a
component that is already Stopped it changes nothing; and a second `Stop` after
a first one yields the state of the first. -/
theorem Stop_stopped_idempotent (env : Env) (s : CVisualizationSpectrum) :
    (s.Stop env).m_startOK = false
    ∧ (s.m_startOK = false → s.Stop env = s)
    ∧ (s.Stop env).Stop env = s.Stop env := by
  unfold CVisualizationSpectrum.Stop
  by_cases hs : s.m_startOK = true
  · simp [hs]
  · have hs' : s.m_startOK = false := by simpa using hs
    simp [hs']

/-- The claim C10 on the sample component, which is Stopped: `Stop` returns it. -/
theorem Stop_stopped_idempotent_witness :
    exampleState.m_startOK = false ∧ exampleState.Stop exampleEnv = exampleState :=
  ⟨ctor_startOK _ _, (Stop_stopped_idempotent exampleEnv exampleState).2.1 (ctor_startOK _ _)⟩

/-! ## Settings -/

/-- C5. `SetSetting` answers `ADDON_STATUS_UNKNOWN` and returns the component as
it was for every name that is none of the six known names, and for every call
with an empty name or an empty value; it answers `ADDON_STATUS_OK` for each of
the six known names with a value that is not empty. -/
theorem SetSetting_status :
    (∀ (env : Env) (s : CVisualizationSpectrum) (settingName : String)
        (settingValue : CSettingValue),
        ((settingName ≠ "bar_height" ∧ settingName ≠ "speed" ∧ settingName ≠ "mode"
            ∧ settingName ≠ "rotation_angle" ∧ settingName ≠ "bar_color_type"
            ∧ settingName ≠ "rotation_speed")
          ∨ settingName = "" ∨ settingValue.empty = true) →
        s.SetSetting env settingName settingValue = (ADDON_STATUS.ADDON_STATUS_UNKNOWN, s))
    ∧ (∀ (env : Env) (s : CVisualizationSpectrum) (settingName : String)
        (settingValue : CSettingValue),
        (settingName = "bar_height" ∨ settingName = "speed" ∨ settingName = "mode"
          ∨ settingName = "rotation_angle" ∨ settingName = "bar_color_type"
          ∨ settingName = "rotation_speed") →
        settingValue.empty = false →
        (s.SetSetting env settingName settingValue).1 = ADDON_STATUS.ADDON_STATUS_OK) := by
  constructor
  · intro env s name val h
    unfold CVisualizationSpectrum.SetSetting
    rcases h with ⟨h1, h2, h3, h4, h5, h6⟩ | h | h
    · simp [h1, h2, h3, h4, h5, h6]
    · subst h; simp [String.isEmpty]
    · simp [h]
  · intro env s name val h hv
    unfold CVisualizationSpectrum.SetSetting
    have e1 : ("bar_height" : String).isEmpty = false := by decide
    have e2 : ("speed" : String).isEmpty = false := by decide
    have e3 : ("mode" : String).isEmpty = false := by decide
    have e4 : ("rotation_angle" : String).isEmpty = false := by decide
    have e5 : ("bar_color_type" : String).isEmpty = false := by decide
    have e6 : ("rotation_speed" : String).isEmpty = false := by decide
    rcases h with h | h | h | h | h | h <;> subst h <;> simp [hv, e1, e2, e3, e4, e5, e6]

/-- The claim C5 on the sample component: the unknown name `volume` is answered
with `ADDON_STATUS_UNKNOWN` and the same component, the name `speed` with
`ADDON_STATUS_OK`. -/
theorem SetSetting_status_witness :
    exampleState.SetSetting exampleEnv "volume" ⟨false, 1⟩
        = (ADDON_STATUS.ADDON_STATUS_UNKNOWN, exampleState)
    ∧ (exampleState.SetSetting exampleEnv "speed" ⟨false, 1⟩).1
        = ADDON_STATUS.ADDON_STATUS_OK :=
  ⟨SetSetting_status.1 exampleEnv exampleState "volume" ⟨false, 1⟩
      (Or.inl ⟨by decide, by decide, by decide, by decide, by decide, by decide⟩),
    SetSetting_status.2 exampleEnv exampleState "speed" ⟨false, 1⟩
      (Or.inr (Or.inl rfl)) rfl⟩

/-- The update lag stays in 0..4 under `SetSetting`. -/
theorem SetSetting_updateLag_bounds (env : Env) (s : CVisualizationSpectrum)
    (settingName : String) (settingValue : CSettingValue)
    (h : 0 ≤ s.m_updateLag ∧ s.m_updateLag ≤ 4) :
    0 ≤ (s.SetSetting env settingName settingValue).2.m_updateLag
    ∧ (s.SetSetting env settingName settingValue).2.m_updateLag ≤ 4 := by
  unfold CVisualizationSpectrum.SetSetting
  split_ifs
  all_goals first
    | exact h
    | (simp only [SetBarHeightSetting_updateLag, SetModeSetting_updateLag,
        SetBarColorSetting_updateLag, SetRotationSpeedSetting_updateLag]; exact h)
    | (simp only [SetSpeedSetting_updateLag]; split_ifs <;> omega)

/-- The update lag stays in 0..4 under every call of the host. -/
theorem step_updateLag_bounds (env : Env) (s : CVisualizationSpectrum) (c : Call)
    (h : 0 ≤ s.m_updateLag ∧ s.m_updateLag ≤ 4) :
    0 ≤ (step env s c).m_updateLag ∧ (step env s c).m_updateLag ≤ 4 := by
  cases c with
  | Start c r b n l k g =>
    simp only [step]
    unfold CVisualizationSpectrum.Start
    split_ifs <;> exact h
  | Stop =>
    simp only [step]
    unfold CVisualizationSpectrum.Stop
    split_ifs <;> exact h
  | Render =>
    simp only [step]
    rw [Render_frame]; exact h
  | AudioData a al f fl =>
    simp only [step]
    rw [AudioData_frame]; exact h
  | GetInfo => exact h
  | SetSetting n v => exact SetSetting_updateLag_bounds env s n v h

theorem ctor_updateLag_bounds (env : Env) (g : Grid) :
    0 ≤ (CVisualizationSpectrum.ctor env g).1.m_updateLag
    ∧ (CVisualizationSpectrum.ctor env g).1.m_updateLag ≤ 4 := by
  simp only [CVisualizationSpectrum.ctor, SetBarHeightSetting_updateLag,
    SetModeSetting_updateLag, SetBarColorSetting_updateLag, SetRotationSpeedSetting_updateLag,
    SetSpeedSetting_updateLag]
  split_ifs <;> omega

/-- C6. For every integer `v` and every prior state, after `SetSetting("speed", v)`
the update lag is `v` when `0 ≤ v ≤ 4` and its prior value otherwise (so `v = 5`
leaves it unchanged); `GetInfo` reports `wantsFreq = true` and
`syncDelay = m_updateLag`; and after construction followed by any sequence of
calls the reported delay lies in 0..4. -/
theorem speed_setting_and_GetInfo :
    (∀ (env : Env) (s : CVisualizationSpectrum) (v : Int),
        (s.SetSetting env "speed" ⟨false, v⟩).2.m_updateLag
          = if 0 ≤ v ∧ v ≤ 4 then v else s.m_updateLag)
    ∧ (∀ (env : Env) (s : CVisualizationSpectrum),
        (s.SetSetting env "speed" ⟨false, 5⟩).2.m_updateLag = s.m_updateLag)
    ∧ (∀ s : CVisualizationSpectrum, s.GetInfo = (true, s.m_updateLag))
    ∧ (∀ (env : Env) (g : Grid) (calls : List Call),
        0 ≤ (run env (CVisualizationSpectrum.ctor env g).1 calls).GetInfo.2
        ∧ (run env (CVisualizationSpectrum.ctor env g).1 calls).GetInfo.2 ≤ 4) := by
  have hset : ∀ (env : Env) (s : CVisualizationSpectrum) (v : Int),
      (s.SetSetting env "speed" ⟨false, v⟩).2.m_updateLag
        = if 0 ≤ v ∧ v ≤ 4 then v else s.m_updateLag := by
    intro env s v
    have e : ("speed" : String).isEmpty = false := by decide
    have n1 : ¬ (("speed" : String) = "bar_height") := by decide
    simp only [CVisualizationSpectrum.SetSetting, e, Bool.false_or, Bool.false_eq_true,
      if_false, n1, if_true]
    exact SetSpeedSetting_updateLag s v
  refine ⟨hset, fun env s => ?_, fun s => rfl, fun env g calls => ?_⟩
  · rw [hset]; simp
  · unfold run
    exact foldl_invariant (fun t : CVisualizationSpectrum => 0 ≤ t.GetInfo.2 ∧ t.GetInfo.2 ≤ 4)
      (step env) calls _ (ctor_updateLag_bounds env g)
      (fun t c ht => step_updateLag_bounds env t c ht)

/-- C7. For each `v` in 0..4, after `SetSetting("bar_height", v)` the height scale
is the table value divided by `log(256)`: 0.5, 1, 2, 3 and 0.33 for 0, 1, 2, 3
and 4. -/
theorem bar_height_setting_table (env : Env) (s : CVisualizationSpectrum) :
    (s.SetSetting env "bar_height" ⟨false, 0⟩).2.m_scale = 0.5 / env.log 256
    ∧ (s.SetSetting env "bar_height" ⟨false, 1⟩).2.m_scale = 1 / env.log 256
    ∧ (s.SetSetting env "bar_height" ⟨false, 2⟩).2.m_scale = 2 / env.log 256
    ∧ (s.SetSetting env "bar_height" ⟨false, 3⟩).2.m_scale = 3 / env.log 256
    ∧ (s.SetSetting env "bar_height" ⟨false, 4⟩).2.m_scale = 0.33 / env.log 256 := by
  have e : ("bar_height" : String).isEmpty = false := by decide
  refine ⟨?_, ?_, ?_, ?_, ?_⟩ <;>
    simp only [CVisualizationSpectrum.SetSetting, e, Bool.false_or, Bool.false_eq_true,
      if_false, if_true, CVisualizationSpectrum.SetBarHeightSetting] <;>
    norm_num

/-- Outside the mode `GL_TRIANGLES` the four side multipliers of `draw_bar` are 1:
all 48 colours of the bar are the colour passed in. -/
theorem draw_bar_colors_unshaded (t : CVisualizationSpectrum)
    (h : t.m_mode ≠ GLenum.GL_TRIANGLES) (x_offset z_offset height red green blue : ℚ) :
    (t.draw_bar x_offset z_offset height red green blue).2.colors
      = List.replicate 48 ⟨red, green, blue⟩ := by
  simp only [CVisualizationSpectrum.draw_bar, h, if_false, barColors]
  norm_num [List.replicate]

/-- C8. For every host value of `pointsize`, `SetSetting("mode", 2)` sets the mode
to `GL_POINTS` and the point size to that value, and `SetSetting("mode", 1)` sets
the mode to `GL_LINES`; every bar built in one of these two modes has the side
multipliers 1: all 48 vertex colours of `draw_bar`, in the draw call and in the
colour buffer, are the colour `(red, green, blue)` passed in. -/
theorem mode_setting_points_lines :
    (∀ (env : Env) (s : CVisualizationSpectrum),
        (s.SetSetting env "mode" ⟨false, 2⟩).2.m_mode = GLenum.GL_POINTS
        ∧ (s.SetSetting env "mode" ⟨false, 2⟩).2.m_pointSize
            = ((env.GetSettingInt "pointsize" : Int) : ℚ)
        ∧ ∀ x_offset z_offset height red green blue : ℚ,
            ((s.SetSetting env "mode" ⟨false, 2⟩).2.draw_bar x_offset z_offset height
              red green blue).2.colors = List.replicate 48 ⟨red, green, blue⟩)
    ∧ (∀ (env : Env) (s : CVisualizationSpectrum),
        (s.SetSetting env "mode" ⟨false, 1⟩).2.m_mode = GLenum.GL_LINES
        ∧ ∀ x_offset z_offset height red green blue : ℚ,
            ((s.SetSetting env "mode" ⟨false, 1⟩).2.draw_bar x_offset z_offset height
              red green blue).2.colors = List.replicate 48 ⟨red, green, blue⟩)
    ∧ (∀ t : CVisualizationSpectrum,
        (t.m_mode = GLenum.GL_POINTS ∨ t.m_mode = GLenum.GL_LINES) →
        ∀ x_offset z_offset height red green blue : ℚ,
          (t.draw_bar x_offset z_offset height red green blue).2.colors
            = List.replicate 48 ⟨red, green, blue⟩
          ∧ (t.draw_bar x_offset z_offset height red green blue).1.m_color_buffer_data
            = List.replicate 48 ⟨red, green, blue⟩
          ∧ (t.draw_bar x_offset z_offset height red green blue).2.mode = t.m_mode) := by
  have e : ("mode" : String).isEmpty = false := by decide
  have n1 : ¬ (("mode" : String) = "bar_height") := by decide
  have n2 : ¬ (("mode" : String) = "speed") := by decide
  have h2 : ∀ (env : Env) (s : CVisualizationSpectrum),
      (s.SetSetting env "mode" ⟨false, 2⟩).2
        = { s with m_mode := GLenum.GL_POINTS
                   m_pointSize := ((env.GetSettingInt "pointsize" : Int) : ℚ) } := by
    intro env s
    simp [CVisualizationSpectrum.SetSetting, e, n1, n2, CVisualizationSpectrum.SetModeSetting]
  have h1 : ∀ (env : Env) (s : CVisualizationSpectrum),
      (s.SetSetting env "mode" ⟨false, 1⟩).2
        = { s with m_mode := GLenum.GL_LINES, m_pointSize := 0.0 } := by
    intro env s
    simp [CVisualizationSpectrum.SetSetting, e, n1, n2, CVisualizationSpectrum.SetModeSetting]
  refine ⟨fun env s => ?_, fun env s => ?_, fun t ht xo zo hh r g b => ?_⟩
  · rw [h2]
    exact ⟨rfl, rfl, fun xo zo hh r g b => draw_bar_colors_unshaded _ (by simp) xo zo hh r g b⟩
  · rw [h1]
    exact ⟨rfl, fun xo zo hh r g b => draw_bar_colors_unshaded _ (by simp) xo zo hh r g b⟩
  · have hne : t.m_mode ≠ GLenum.GL_TRIANGLES := by
      rcases ht with ht | ht <;> rw [ht] <;> decide
    exact ⟨draw_bar_colors_unshaded t hne xo zo hh r g b,
      draw_bar_colors_unshaded t hne xo zo hh r g b, rfl⟩

/-- The claim C8 on the sample host, where `pointsize` is 3: after
`SetSetting("mode", 2)` the mode is `GL_POINTS`, the point size is 3 and a bar of
colour `(1, 0.5, 0.25)` has that colour at its 48 vertices. -/
theorem mode_setting_points_lines_witness :
    (exampleState.SetSetting exampleEnv "mode" ⟨false, 2⟩).2.m_mode = GLenum.GL_POINTS
    ∧ (exampleState.SetSetting exampleEnv "mode" ⟨false, 2⟩).2.m_pointSize = 3
    ∧ ((exampleState.SetSetting exampleEnv "mode" ⟨false, 2⟩).2.draw_bar 0 0 1
          1 0.5 0.25).2.colors = List.replicate 48 ⟨1, 0.5, 0.25⟩ :=
  ⟨(mode_setting_points_lines.1 exampleEnv exampleState).1,
    ((mode_setting_points_lines.1 exampleEnv exampleState).2.1).trans
      (by norm_num [exampleEnv]),
    (mode_setting_points_lines.2.2 _
      (Or.inl (mode_setting_points_lines.1 exampleEnv exampleState).1) 0 0 1 1 0.5 0.25).1⟩

/-! ## The draw calls of a frame -/

/-- The method `draw_all_bars` as two nested folds of the loop body. -/
theorem draw_all_bars_eq (s : CVisualizationSpectrum) :
    s.draw_all_bars
      = (List.range NUM_BARS).foldl
          (fun st y => (List.range NUM_BARS).foldl (drawBarStep y) st) (s, []) :=
  rfl

/-- The draw call of a bar depends on the mode, the colour scheme and the array
only. -/
theorem barCall_congr (s t : CVisualizationSpectrum) (y x : Nat)
    (h : t.m_mode = s.m_mode ∧ t.m_bar_color_type = s.m_bar_color_type
      ∧ t.m_heights = s.m_heights) :
    barCall t y x = barCall s y x := by
  obtain ⟨h1, h2, h3⟩ := h
  simp only [barCall, CVisualizationSpectrum.draw_bar, h1, h2, h3]

/-- The inner loop of `draw_all_bars` appends the calls of the row `y`, column by
column, and keeps the mode, the colour scheme and the array. -/
theorem draw_row_fold (s : CVisualizationSpectrum) (y : Nat) (l : List Nat)
    (st : CVisualizationSpectrum × List DrawCall)
    (h : st.1.m_mode = s.m_mode ∧ st.1.m_bar_color_type = s.m_bar_color_type
      ∧ st.1.m_heights = s.m_heights) :
    ((l.foldl (drawBarStep y) st).1.m_mode = s.m_mode
      ∧ (l.foldl (drawBarStep y) st).1.m_bar_color_type = s.m_bar_color_type
      ∧ (l.foldl (drawBarStep y) st).1.m_heights = s.m_heights)
    ∧ (l.foldl (drawBarStep y) st).2 = st.2 ++ l.map (barCall s y) := by
  induction l generalizing st with
  | nil => exact ⟨h, by simp⟩
  | cons x l ih =>
    simp only [List.foldl_cons, List.map_cons]
    have hstep := ih (drawBarStep y st x) h
    refine ⟨hstep.1, ?_⟩
    rw [hstep.2]
    have e : (drawBarStep y st x).2 = st.2 ++ [barCall st.1 y x] := rfl
    rw [e, barCall_congr s st.1 y x h, List.append_assoc]
    rfl

/-- The outer loop of `draw_all_bars` after `m` rows: `16 * m` calls, the call at
the index `16 * y + x` being the bar of the row `y` and the column `x`. -/
theorem draw_rows_fold (s : CVisualizationSpectrum) (m : Nat) :
    ((((List.range m).foldl
          (fun st y => (List.range NUM_BARS).foldl (drawBarStep y) st) (s, [])).1.m_mode
        = s.m_mode
      ∧ ((List.range m).foldl
          (fun st y => (List.range NUM_BARS).foldl (drawBarStep y) st)
            (s, [])).1.m_bar_color_type = s.m_bar_color_type
      ∧ ((List.range m).foldl
          (fun st y => (List.range NUM_BARS).foldl (drawBarStep y) st) (s, [])).1.m_heights
        = s.m_heights)
    ∧ ((List.range m).foldl
          (fun st y => (List.range NUM_BARS).foldl (drawBarStep y) st) (s, [])).2.length
        = 16 * m)
    ∧ ∀ y x, y < m → x < 16 →
        ((List.range m).foldl
          (fun st y => (List.range NUM_BARS).foldl (drawBarStep y) st) (s, [])).2[16 * y + x]?
          = some (barCall s y x) := by
  induction m with
  | zero => exact ⟨⟨⟨rfl, rfl, rfl⟩, rfl⟩, fun y x hy _ => absurd hy (Nat.not_lt_zero y)⟩
  | succ m ih =>
    obtain ⟨⟨hag, hlen⟩, hget⟩ := ih
    rw [List.range_succ m, List.foldl_append]
    simp only [List.foldl_cons, List.foldl_nil]
    have hrow := draw_row_fold s m (List.range NUM_BARS) _ hag
    refine ⟨⟨hrow.1, ?_⟩, fun y x hy hx => ?_⟩
    · rw [hrow.2, List.length_append, hlen, List.length_map, List.length_range]
      show 16 * m + 16 = 16 * (m + 1)
      ring
    · rw [hrow.2]
      by_cases hlt : y < m
      · rw [List.getElem?_append_left (by rw [hlen]; omega)]
        exact hget y x hlt hx
      · have hym : y = m := by omega
        subst hym
        rw [List.getElem?_append_right (by rw [hlen]; omega), hlen]
        have e : 16 * y + x - 16 * y = x := by omega
        rw [e, List.getElem?_map, List.getElem?_range (by show x < 16; exact hx)]
        rfl

/-- The calls of a frame: `Render` on a Started component issues 256 calls, and
the call at the index `16 * y + x` is the bar of the row `y` and the column `x`. -/
theorem Render_calls (s : CVisualizationSpectrum) (hs : s.m_startOK = true) :
    s.Render.2.length = 256
    ∧ ∀ y x, y < 16 → x < 16 → s.Render.2[16 * y + x]? = some (barCall s y x) := by
  unfold CVisualizationSpectrum.Render
  simp only [hs, Bool.not_true, Bool.false_eq_true, if_false]
  rw [draw_all_bars_eq]
  refine ⟨(draw_rows_fold _ 16).1.2, fun y x hy hx => ?_⟩
  rw [(draw_rows_fold _ 16).2 y x hy hx]
  rfl

/-- The bar of the row `y` and the column `x`, written with the offsets
`-1.6 + 0.2 * x` and `-1.6 + 0.2 * (16 - y)`, the height `m_heights[y][x]` and the
colour of the selected scheme. -/
theorem barCall_eq (s : CVisualizationSpectrum) (y x : Nat) (hy : y ≤ 16) :
    barCall s y x
      = (s.draw_bar (-1.6 + 0.2 * (x : ℚ)) (-1.6 + 0.2 * (16 - (y : ℚ))) (s.m_heights y x)
          (barColor s.m_bar_color_type x (1 - (y : ℚ) / 16) ((y : ℚ) / 16)).1
          (barColor s.m_bar_color_type x (1 - (y : ℚ) / 16) ((y : ℚ) / 16)).2.1
          (barColor s.m_bar_color_type x (1 - (y : ℚ) / 16) ((y : ℚ) / 16)).2.2).2 := by
  have e1 : (-1.6 + ((x : ℚ) * 0.2) : ℚ) = -1.6 + 0.2 * (x : ℚ) := by ring
  have e2 : (-1.6 + (((NUM_BARS - y : Nat) : ℚ) * 0.2) : ℚ) = -1.6 + 0.2 * (16 - (y : ℚ)) := by
    rw [Nat.cast_sub hy]; push_cast; ring
  have e3 : ((y : ℚ) * (1.0 / (NUM_BARS : ℚ)) : ℚ) = (y : ℚ) / 16 := by
    push_cast; ring
  have e4 : ((1.0 : ℚ) - (y : ℚ) / 16) = 1 - (y : ℚ) / 16 := by norm_num
  simp only [barCall, e1, e2, e3, e4]

/-! ## Colour schemes -/

/-- C11. With the scheme 1 (one solid colour) selected, which
`SetSetting("bar_color_type", 1)` does, the colour computed for a bar is exactly
`(1, 0, 0)` for every column and every row; in a frame of a Started component
every one of the 256 bars is built with that colour. -/
theorem solid_color_scheme :
    (∀ (env : Env) (s : CVisualizationSpectrum),
        (s.SetSetting env "bar_color_type" ⟨false, 1⟩).2.m_bar_color_type = 1)
    ∧ (∀ (x : Nat) (r_base b_base : ℚ), barColor 1 x r_base b_base = (1, 0, 0))
    ∧ (∀ s : CVisualizationSpectrum, s.m_startOK = true → s.m_bar_color_type = 1 →
        ∀ y x : Nat, y < 16 → x < 16 →
          s.Render.2[16 * y + x]?
            = some (s.draw_bar (-1.6 + 0.2 * (x : ℚ)) (-1.6 + 0.2 * (16 - (y : ℚ)))
                (s.m_heights y x) 1 0 0).2) := by
  have hcol : ∀ (x : Nat) (r_base b_base : ℚ), barColor 1 x r_base b_base = (1, 0, 0) := by
    intro x r_base b_base
    simp [barColor]
  refine ⟨fun env s => ?_, hcol, fun s hs hc y x hy hx => ?_⟩
  · have e : ("bar_color_type" : String).isEmpty = false := by decide
    have n1 : ¬ (("bar_color_type" : String) = "bar_height") := by decide
    have n2 : ¬ (("bar_color_type" : String) = "speed") := by decide
    have n3 : ¬ (("bar_color_type" : String) = "mode") := by decide
    have n4 : ¬ (("bar_color_type" : String) = "rotation_angle") := by decide
    simp [CVisualizationSpectrum.SetSetting, e, n1, n2, n3, n4,
      CVisualizationSpectrum.SetBarColorSetting]
  · rw [(Render_calls s hs).2 y x hy hx, barCall_eq s y x (by omega), hc, hcol]

/-- The claim C11 on the sample component, Started with the scheme 1: the first
bar of the frame is built with the colour `(1, 0, 0)`. -/
theorem solid_color_scheme_witness :
    (CVisualizationSpectrum.Render
        { exampleState with m_startOK := true, m_bar_color_type := 1 }).2[16 * 0 + 0]?
      = some (CVisualizationSpectrum.draw_bar
          { exampleState with m_startOK := true, m_bar_color_type := 1 }
          (-1.6 + 0.2 * ((0 : Nat) : ℚ)) (-1.6 + 0.2 * (16 - ((0 : Nat) : ℚ)))
          (exampleState.m_heights 0 0) 1 0 0).2 :=
  solid_color_scheme.2.2 { exampleState with m_startOK := true, m_bar_color_type := 1 }
    rfl rfl 0 0 (by decide) (by decide)

/-- C12. With the scheme 2 (two-colour gradient) selected, which
`SetSetting("bar_color_type", 2)` does, the colour of a bar in the column `c` is
`r = 1 - (c - 16)/16`, `g = (c - 16)/16`, `b = 0` in every row; for `0 ≤ c < 16`
this gives `1 < r ≤ 2` and `-1 ≤ g < 0`. -/
theorem gradient_two_color_scheme :
    (∀ (env : Env) (s : CVisualizationSpectrum),
        (s.SetSetting env "bar_color_type" ⟨false, 2⟩).2.m_bar_color_type = 2)
    ∧ (∀ (c : Nat) (r_base b_base : ℚ),
        barColor 2 c r_base b_base = (1 - ((c : ℚ) - 16) / 16, ((c : ℚ) - 16) / 16, 0))
    ∧ (∀ (c : Nat) (r_base b_base : ℚ), c < 16 →
        1 < (barColor 2 c r_base b_base).1 ∧ (barColor 2 c r_base b_base).1 ≤ 2
        ∧ -1 ≤ (barColor 2 c r_base b_base).2.1 ∧ (barColor 2 c r_base b_base).2.1 < 0
        ∧ (barColor 2 c r_base b_base).2.2 = 0) := by
  have hcol : ∀ (c : Nat) (r_base b_base : ℚ),
      barColor 2 c r_base b_base = (1 - ((c : ℚ) - 16) / 16, ((c : ℚ) - 16) / 16, 0) := by
    intro c r_base b_base
    simp only [barColor, if_true]
    norm_num
  refine ⟨fun env s => ?_, hcol, fun c r_base b_base hc => ?_⟩
  · have e : ("bar_color_type" : String).isEmpty = false := by decide
    have n1 : ¬ (("bar_color_type" : String) = "bar_height") := by decide
    have n2 : ¬ (("bar_color_type" : String) = "speed") := by decide
    have n3 : ¬ (("bar_color_type" : String) = "mode") := by decide
    have n4 : ¬ (("bar_color_type" : String) = "rotation_angle") := by decide
    simp [CVisualizationSpectrum.SetSetting, e, n1, n2, n3, n4,
      CVisualizationSpectrum.SetBarColorSetting]
  · rw [hcol]
    have h0 : (0 : ℚ) ≤ (c : ℚ) := Nat.cast_nonneg c
    have h15 : (c : ℚ) ≤ 15 := by exact_mod_cast Nat.lt_succ_iff.mp hc
    refine ⟨?_, ?_, ?_, ?_, rfl⟩ <;> simp only <;> linarith

/-- The claim C12 in the column 3: the red component lies in `(1, 2]` and the
green component in `[-1, 0)`. -/
theorem gradient_two_color_scheme_witness :
    1 < (barColor 2 3 1 0).1 ∧ (barColor 2 3 1 0).1 ≤ 2
    ∧ -1 ≤ (barColor 2 3 1 0).2.1 ∧ (barColor 2 3 1 0).2.1 < 0
    ∧ (barColor 2 3 1 0).2.2 = 0 :=
  gradient_two_color_scheme.2.2 3 1 0 (by decide)

/-! ## What each call leaves alone -/

/-- The method `SetSetting` changes at most the seven members that hold settings. -/
theorem SetSetting_frame (env : Env) (s : CVisualizationSpectrum) (settingName : String)
    (settingValue : CSettingValue) :
    (s.SetSetting env settingName settingValue).2
      = { s with
          m_scale := (s.SetSetting env settingName settingValue).2.m_scale
          m_mode := (s.SetSetting env settingName settingValue).2.m_mode
          m_pointSize := (s.SetSetting env settingName settingValue).2.m_pointSize
          m_updateLag := (s.SetSetting env settingName settingValue).2.m_updateLag
          m_bar_color_type := (s.SetSetting env settingName settingValue).2.m_bar_color_type
          m_y_speed := (s.SetSetting env settingName settingValue).2.m_y_speed
          m_y_fixedAngle := (s.SetSetting env settingName settingValue).2.m_y_fixedAngle } := by
  unfold CVisualizationSpectrum.SetSetting
  split_ifs
  · rfl
  · show s.SetBarHeightSetting env settingValue.GetInt = _
    rw [SetBarHeightSetting_frame]
  · show s.SetSpeedSetting settingValue.GetInt = _
    rw [SetSpeedSetting_frame]
  · show s.SetModeSetting env settingValue.GetInt = _
    rw [SetModeSetting_frame]
  · rfl
  · show s.SetBarColorSetting settingValue.GetInt = _
    rw [SetBarColorSetting_frame]
  · show s.SetRotationSpeedSetting settingValue.GetInt = _
    rw [SetRotationSpeedSetting_frame]
  · rfl

/-- The method `Start` changes at most the array, the buffer names and the
started flag. -/
theorem Start_frame (env : Env) (s : CVisualizationSpectrum)
    (channels samplesPerSec bitsPerSample : Int) (songName : String)
    (LoadShaderFiles CompileAndLink : Bool) (glGenBuffers : Nat × Nat) :
    (s.Start env channels samplesPerSec bitsPerSample songName LoadShaderFiles
        CompileAndLink glGenBuffers).2.1
      = { s with
          m_heights := (s.Start env channels samplesPerSec bitsPerSample songName
            LoadShaderFiles CompileAndLink glGenBuffers).2.1.m_heights
          m_vertexVBO := (s.Start env channels samplesPerSec bitsPerSample songName
            LoadShaderFiles CompileAndLink glGenBuffers).2.1.m_vertexVBO
          m_startOK := (s.Start env channels samplesPerSec bitsPerSample songName
            LoadShaderFiles CompileAndLink glGenBuffers).2.1.m_startOK } := by
  unfold CVisualizationSpectrum.Start
  split_ifs <;> rfl

/-- The method `Stop` changes at most the buffer names and the started flag. -/
theorem Stop_frame (env : Env) (s : CVisualizationSpectrum) :
    s.Stop env
      = { s with
          m_vertexVBO := (s.Stop env).m_vertexVBO
          m_startOK := (s.Stop env).m_startOK } := by
  unfold CVisualizationSpectrum.Stop
  split_ifs <;> rfl

/-- The angles after `Render` on a Started component. -/
theorem Render_angles (s : CVisualizationSpectrum) (hs : s.m_startOK = true) :
    s.Render.1.m_x_angle
        = (if s.m_x_angle + s.m_x_speed ≥ 360.0 then s.m_x_angle + s.m_x_speed - 360.0
           else s.m_x_angle + s.m_x_speed)
    ∧ s.Render.1.m_y_angle
        = (if s.m_y_fixedAngle < 0.0 then
            (if s.m_y_angle + s.m_y_speed ≥ 360.0 then s.m_y_angle + s.m_y_speed - 360.0
             else s.m_y_angle + s.m_y_speed)
           else s.m_y_fixedAngle)
    ∧ s.Render.1.m_z_angle
        = (if s.m_z_angle + s.m_z_speed ≥ 360.0 then s.m_z_angle + s.m_z_speed - 360.0
           else s.m_z_angle + s.m_z_speed) := by
  unfold CVisualizationSpectrum.Render
  simp only [hs, Bool.not_true, Bool.false_eq_true, if_false]
  rw [draw_all_bars_frame]
  exact ⟨rfl, rfl, rfl⟩

/-- The method `Render` on a Stopped component returns it. -/
theorem Render_stopped (s : CVisualizationSpectrum) (hs : s.m_startOK = false) :
    s.Render = (s, []) := by
  unfold CVisualizationSpectrum.Render
  simp [hs]

/-- The angle and the speed of the rotation about the X axis are constant:
20 and 0 under every call. -/
theorem step_x_angle (env : Env) (s : CVisualizationSpectrum) (c : Call)
    (h : s.m_x_angle = 20 ∧ s.m_x_speed = 0) :
    (step env s c).m_x_angle = 20 ∧ (step env s c).m_x_speed = 0 := by
  cases c with
  | Start c r b n l k g =>
    simp only [step]
    rw [Start_frame]; exact h
  | Stop =>
    simp only [step]
    rw [Stop_frame]; exact h
  | Render =>
    simp only [step]
    by_cases hs : s.m_startOK = true
    · refine ⟨?_, ?_⟩
      · rw [(Render_angles s hs).1, h.1, h.2]; norm_num
      · rw [Render_frame]; exact h.2
    · have hs' : s.m_startOK = false := by simpa using hs
      rw [Render_stopped s hs']; exact h
  | AudioData a al f fl =>
    simp only [step]
    rw [AudioData_frame]; exact h
  | GetInfo => exact h
  | SetSetting n v =>
    simp only [step]
    rw [SetSetting_frame]; exact h

@[simp] theorem SetBarHeightSetting_m_heights (env : Env) (s : CVisualizationSpectrum) (v : Int) :
    (s.SetBarHeightSetting env v).m_heights = s.m_heights := by
  rw [SetBarHeightSetting_frame]

@[simp] theorem SetBarHeightSetting_m_x_angle (env : Env) (s : CVisualizationSpectrum) (v : Int) :
    (s.SetBarHeightSetting env v).m_x_angle = s.m_x_angle := by
  rw [SetBarHeightSetting_frame]

@[simp] theorem SetBarHeightSetting_m_x_speed (env : Env) (s : CVisualizationSpectrum) (v : Int) :
    (s.SetBarHeightSetting env v).m_x_speed = s.m_x_speed := by
  rw [SetBarHeightSetting_frame]

@[simp] theorem SetBarHeightSetting_m_y_angle (env : Env) (s : CVisualizationSpectrum) (v : Int) :
    (s.SetBarHeightSetting env v).m_y_angle = s.m_y_angle := by
  rw [SetBarHeightSetting_frame]

@[simp] theorem SetBarHeightSetting_m_y_speed (env : Env) (s : CVisualizationSpectrum) (v : Int) :
    (s.SetBarHeightSetting env v).m_y_speed = s.m_y_speed := by
  rw [SetBarHeightSetting_frame]

@[simp] theorem SetBarHeightSetting_m_y_fixedAngle (env : Env) (s : CVisualizationSpectrum) (v : Int) :
    (s.SetBarHeightSetting env v).m_y_fixedAngle = s.m_y_fixedAngle := by
  rw [SetBarHeightSetting_frame]

@[simp] theorem SetModeSetting_m_heights (env : Env) (s : CVisualizationSpectrum) (v : Int) :
    (s.SetModeSetting env v).m_heights = s.m_heights := by
  rw [SetModeSetting_frame]

@[simp] theorem SetModeSetting_m_x_angle (env : Env) (s : CVisualizationSpectrum) (v : Int) :
    (s.SetModeSetting env v).m_x_angle = s.m_x_angle := by
  rw [SetModeSetting_frame]

@[simp] theorem SetModeSetting_m_x_speed (env : Env) (s : CVisualizationSpectrum) (v : Int) :
    (s.SetModeSetting env v).m_x_speed = s.m_x_speed := by
  rw [SetModeSetting_frame]

@[simp] theorem SetModeSetting_m_y_angle (env : Env) (s : CVisualizationSpectrum) (v : Int) :
    (s.SetModeSetting env v).m_y_angle = s.m_y_angle := by
  rw [SetModeSetting_frame]

@[simp] theorem SetModeSetting_m_y_speed (env : Env) (s : CVisualizationSpectrum) (v : Int) :
    (s.SetModeSetting env v).m_y_speed = s.m_y_speed := by
  rw [SetModeSetting_frame]

@[simp] theorem SetModeSetting_m_y_fixedAngle (env : Env) (s : CVisualizationSpectrum) (v : Int) :
    (s.SetModeSetting env v).m_y_fixedAngle = s.m_y_fixedAngle := by
  rw [SetModeSetting_frame]

@[simp] theorem SetSpeedSetting_m_heights (s : CVisualizationSpectrum) (v : Int) :
    (s.SetSpeedSetting v).m_heights = s.m_heights := by
  rw [SetSpeedSetting_frame]

@[simp] theorem SetSpeedSetting_m_x_angle (s : CVisualizationSpectrum) (v : Int) :
    (s.SetSpeedSetting v).m_x_angle = s.m_x_angle := by
  rw [SetSpeedSetting_frame]

@[simp] theorem SetSpeedSetting_m_x_speed (s : CVisualizationSpectrum) (v : Int) :
    (s.SetSpeedSetting v).m_x_speed = s.m_x_speed := by
  rw [SetSpeedSetting_frame]

@[simp] theorem SetSpeedSetting_m_y_angle (s : CVisualizationSpectrum) (v : Int) :
    (s.SetSpeedSetting v).m_y_angle = s.m_y_angle := by
  rw [SetSpeedSetting_frame]

@[simp] theorem SetSpeedSetting_m_y_speed (s : CVisualizationSpectrum) (v : Int) :
    (s.SetSpeedSetting v).m_y_speed = s.m_y_speed := by
  rw [SetSpeedSetting_frame]

@[simp] theorem SetSpeedSetting_m_y_fixedAngle (s : CVisualizationSpectrum) (v : Int) :
    (s.SetSpeedSetting v).m_y_fixedAngle = s.m_y_fixedAngle := by
  rw [SetSpeedSetting_frame]

@[simp] theorem SetBarColorSetting_m_heights (s : CVisualizationSpectrum) (v : Int) :
    (s.SetBarColorSetting v).m_heights = s.m_heights := by
  rw [SetBarColorSetting_frame]

@[simp] theorem SetBarColorSetting_m_x_angle (s : CVisualizationSpectrum) (v : Int) :
    (s.SetBarColorSetting v).m_x_angle = s.m_x_angle := by
  rw [SetBarColorSetting_frame]

@[simp] theorem SetBarColorSetting_m_x_speed (s : CVisualizationSpectrum) (v : Int) :
    (s.SetBarColorSetting v).m_x_speed = s.m_x_speed := by
  rw [SetBarColorSetting_frame]

@[simp] theorem SetBarColorSetting_m_y_angle (s : CVisualizationSpectrum) (v : Int) :
    (s.SetBarColorSetting v).m_y_angle = s.m_y_angle := by
  rw [SetBarColorSetting_frame]

@[simp] theorem SetBarColorSetting_m_y_speed (s : CVisualizationSpectrum) (v : Int) :
    (s.SetBarColorSetting v).m_y_speed = s.m_y_speed := by
  rw [SetBarColorSetting_frame]

@[simp] theorem SetBarColorSetting_m_y_fixedAngle (s : CVisualizationSpectrum) (v : Int) :
    (s.SetBarColorSetting v).m_y_fixedAngle = s.m_y_fixedAngle := by
  rw [SetBarColorSetting_frame]

@[simp] theorem SetRotationSpeedSetting_m_heights (s : CVisualizationSpectrum) (v : Int) :
    (s.SetRotationSpeedSetting v).m_heights = s.m_heights := by
  rw [SetRotationSpeedSetting_frame]

@[simp] theorem SetRotationSpeedSetting_m_x_angle (s : CVisualizationSpectrum) (v : Int) :
    (s.SetRotationSpeedSetting v).m_x_angle = s.m_x_angle := by
  rw [SetRotationSpeedSetting_frame]

@[simp] theorem SetRotationSpeedSetting_m_x_speed (s : CVisualizationSpectrum) (v : Int) :
    (s.SetRotationSpeedSetting v).m_x_speed = s.m_x_speed := by
  rw [SetRotationSpeedSetting_frame]

@[simp] theorem SetRotationSpeedSetting_m_y_angle (s : CVisualizationSpectrum) (v : Int) :
    (s.SetRotationSpeedSetting v).m_y_angle = s.m_y_angle := by
  rw [SetRotationSpeedSetting_frame]

@[simp] theorem SetRotationSpeedSetting_m_y_fixedAngle (s : CVisualizationSpectrum) (v : Int) :
    (s.SetRotationSpeedSetting v).m_y_fixedAngle = s.m_y_fixedAngle := by
  rw [SetRotationSpeedSetting_frame]

theorem ctor_x_angle (env : Env) (g : Grid) :
    (CVisualizationSpectrum.ctor env g).1.m_x_angle = 20
    ∧ (CVisualizationSpectrum.ctor env g).1.m_x_speed = 0 := by
  simp only [CVisualizationSpectrum.ctor, SetRotationSpeedSetting_m_x_angle,
    SetBarColorSetting_m_x_angle, SetModeSetting_m_x_angle, SetSpeedSetting_m_x_angle,
    SetBarHeightSetting_m_x_angle, SetRotationSpeedSetting_m_x_speed,
    SetBarColorSetting_m_x_speed, SetModeSetting_m_x_speed, SetSpeedSetting_m_x_speed,
    SetBarHeightSetting_m_x_speed]
  norm_num

/-! ## The camera angles -/

/-- C13. Angle wrap for X: after construction and any sequence of calls of the
host (`Render` and `SetSetting` among them), `0 ≤ m_x_angle < 360`; the angle
stays at the 20 degrees of the constructor, the X speed being 0. -/
theorem x_angle_in_range (env : Env) (g : Grid) (calls : List Call) :
    0 ≤ (run env (CVisualizationSpectrum.ctor env g).1 calls).m_x_angle
    ∧ (run env (CVisualizationSpectrum.ctor env g).1 calls).m_x_angle < 360
    ∧ (run env (CVisualizationSpectrum.ctor env g).1 calls).m_x_angle = 20 := by
  have h : (run env (CVisualizationSpectrum.ctor env g).1 calls).m_x_angle = 20
      ∧ (run env (CVisualizationSpectrum.ctor env g).1 calls).m_x_speed = 0 := by
    unfold run
    exact foldl_invariant
      (fun t : CVisualizationSpectrum => t.m_x_angle = 20 ∧ t.m_x_speed = 0)
      (step env) calls _ (ctor_x_angle env g) (fun t c ht => step_x_angle env t c ht)
  rw [h.1]
  norm_num

/-! ## The mesh of a bar -/

/-- C14. Bar mesh shape: for every offset, height and colour `draw_bar` produces
exactly 48 positions and 48 colours (in the draw call, whose count is 48, and in
the two buffers); every position is a corner of the cuboid with `x` in
`{x_offset, x_offset + 0.1}`, `y` in `{0, height}` and `z` in
`{z_offset, z_offset + 0.1}`; the vertices 0 to 11 have `y = 0` and the vertices
36 to 47 have `y = height`. -/
theorem draw_bar_mesh_shape (s : CVisualizationSpectrum)
    (x_offset z_offset height red green blue : ℚ) :
    (s.draw_bar x_offset z_offset height red green blue).2.vertices.length = 48
    ∧ (s.draw_bar x_offset z_offset height red green blue).2.colors.length = 48
    ∧ (s.draw_bar x_offset z_offset height red green blue).2.count = 48
    ∧ (s.draw_bar x_offset z_offset height red green blue).1.m_vertex_buffer_data
        = (s.draw_bar x_offset z_offset height red green blue).2.vertices
    ∧ (s.draw_bar x_offset z_offset height red green blue).1.m_color_buffer_data
        = (s.draw_bar x_offset z_offset height red green blue).2.colors
    ∧ (∀ v ∈ (s.draw_bar x_offset z_offset height red green blue).2.vertices,
        (v.x = x_offset ∨ v.x = x_offset + 0.1) ∧ (v.y = 0 ∨ v.y = height)
          ∧ (v.z = z_offset ∨ v.z = z_offset + 0.1))
    ∧ (∀ v ∈ (s.draw_bar x_offset z_offset height red green blue).2.vertices.take 12,
        v.y = 0)
    ∧ (∀ v ∈ (s.draw_bar x_offset z_offset height red green blue).2.vertices.drop 36,
        v.y = height) := by
  refine ⟨rfl, rfl, rfl, rfl, rfl, ?_, ?_, ?_⟩
  · intro v hv
    simp only [CVisualizationSpectrum.draw_bar, barVertices, List.mem_cons,
      List.mem_singleton, List.not_mem_nil, or_false] at hv
    rcases hv with h | h | h | h | h | h | h | h | h | h | h | h | h | h | h | h
      | h | h | h | h | h | h | h | h | h | h | h | h | h | h | h | h
      | h | h | h | h | h | h | h | h | h | h | h | h | h | h | h | h <;>
      subst h <;> norm_num
  · intro v hv
    simp only [CVisualizationSpectrum.draw_bar, barVertices, List.take_succ_cons,
      List.take_zero, List.mem_cons, List.not_mem_nil, or_false] at hv
    rcases hv with h | h | h | h | h | h | h | h | h | h | h | h <;> subst h <;> norm_num
  · intro v hv
    simp only [CVisualizationSpectrum.draw_bar, barVertices, List.drop_succ_cons,
      List.drop_zero, List.mem_cons, List.not_mem_nil, or_false] at hv
    rcases hv with h | h | h | h | h | h | h | h | h | h | h | h <;> subst h <;> rfl

/-- The claim C14 on a bar of height 2 at the offsets `(-1.6, 1.6)`: its first
vertex, `(-1.5, 0, 1.7)`, is a corner of the cuboid. -/
theorem draw_bar_mesh_shape_witness :
    (((⟨-1.6 + 0.1, 0.0, 1.6 + 0.1⟩ : vec3).x = -1.6
        ∨ (⟨-1.6 + 0.1, 0.0, 1.6 + 0.1⟩ : vec3).x = -1.6 + 0.1)
      ∧ ((⟨-1.6 + 0.1, 0.0, 1.6 + 0.1⟩ : vec3).y = 0
        ∨ (⟨-1.6 + 0.1, 0.0, 1.6 + 0.1⟩ : vec3).y = 2)
      ∧ ((⟨-1.6 + 0.1, 0.0, 1.6 + 0.1⟩ : vec3).z = 1.6
        ∨ (⟨-1.6 + 0.1, 0.0, 1.6 + 0.1⟩ : vec3).z = 1.6 + 0.1)) :=
  (draw_bar_mesh_shape exampleState (-1.6) 1.6 2 1 0 0).2.2.2.2.2.1
    ⟨-1.6 + 0.1, 0.0, 1.6 + 0.1⟩ (List.mem_cons_self _ _)

/-- C15, the claim fails on the bottom and the top: read as consecutive triples,
the vertex list of the bar of height 1 at the origin has four triangles in the
plane of the bottom face and four in the plane of the top face, not two. -/
theorem bottom_and_top_have_four_triangles :
    (trianglesOn 0 0 1 0.1 Face.bottom
        (triangles (exampleState.draw_bar 0 0 1 1 0 0).2.vertices)).length = 4
    ∧ (trianglesOn 0 0 1 0.1 Face.top
        (triangles (exampleState.draw_bar 0 0 1 1 0 0).2.vertices)).length = 4 := by
  constructor <;>
    norm_num [CVisualizationSpectrum.draw_bar, barVertices, triangles, trianglesOn, onFace,
      List.filter_cons]

/-- The triangles of a bar in the plane of the bottom face, in the order of the
vertex list. -/
theorem trianglesOn_bottom (x_offset z_offset height : ℚ) (hh : height ≠ 0) :
    trianglesOn x_offset z_offset height 0.1 Face.bottom
        (triangles (barVertices x_offset z_offset height 0.1))
      = [(⟨x_offset + 0.1, 0.0, z_offset + 0.1⟩, ⟨x_offset, 0.0, z_offset⟩,
            ⟨x_offset + 0.1, 0.0, z_offset⟩),
          (⟨x_offset + 0.1, 0.0, z_offset + 0.1⟩, ⟨x_offset, 0.0, z_offset + 0.1⟩,
            ⟨x_offset, 0.0, z_offset⟩),
          (⟨x_offset, 0.0, z_offset + 0.1⟩, ⟨x_offset + 0.1, 0.0, z_offset⟩,
            ⟨x_offset + 0.1, 0.0, z_offset + 0.1⟩),
          (⟨x_offset, 0.0, z_offset + 0.1⟩, ⟨x_offset + 0.1, 0.0, z_offset⟩,
            ⟨x_offset, 0.0, z_offset⟩)] := by
  have hh' : ¬ (0 = height) := fun h => hh h.symm
  norm_num [barVertices, triangles, trianglesOn, onFace, List.filter_cons, hh, hh']

/-- The triangles of a bar in the plane of the top face, in the order of the
vertex list. -/
theorem trianglesOn_top (x_offset z_offset height : ℚ) (hh : height ≠ 0) :
    trianglesOn x_offset z_offset height 0.1 Face.top
        (triangles (barVertices x_offset z_offset height 0.1))
      = [(⟨x_offset + 0.1, height, z_offset + 0.1⟩, ⟨x_offset + 0.1, height, z_offset⟩,
            ⟨x_offset, height, z_offset⟩),
          (⟨x_offset + 0.1, height, z_offset + 0.1⟩, ⟨x_offset, height, z_offset⟩,
            ⟨x_offset, height, z_offset + 0.1⟩),
          (⟨x_offset, height, z_offset + 0.1⟩, ⟨x_offset + 0.1, height, z_offset⟩,
            ⟨x_offset, height, z_offset⟩),
          (⟨x_offset + 0.1, height, z_offset⟩, ⟨x_offset + 0.1, height, z_offset + 0.1⟩,
            ⟨x_offset, height, z_offset + 0.1⟩)] := by
  have hh' : ¬ (0 = height) := fun h => hh h.symm
  norm_num [barVertices, triangles, trianglesOn, onFace, List.filter_cons, hh, hh']

/-- The triangles of a bar in the plane of the side face at `x = x_offset`. -/
theorem trianglesOn_xLow (x_offset z_offset height : ℚ) (hh : height ≠ 0) :
    trianglesOn x_offset z_offset height 0.1 Face.xLow
        (triangles (barVertices x_offset z_offset height 0.1))
      = [(⟨x_offset, 0.0, z_offset⟩, ⟨x_offset, 0.0, z_offset + 0.1⟩,
            ⟨x_offset, height, z_offset + 0.1⟩),
          (⟨x_offset, 0.0, z_offset⟩, ⟨x_offset, height, z_offset + 0.1⟩,
            ⟨x_offset, height, z_offset⟩)] := by
  have hh' : ¬ (0 = height) := fun h => hh h.symm
  norm_num [barVertices, triangles, trianglesOn, onFace, List.filter_cons, hh, hh']

/-- The triangles of a bar in the plane of the side face at `z = z_offset`. -/
theorem trianglesOn_zLow (x_offset z_offset height : ℚ) (hh : height ≠ 0) :
    trianglesOn x_offset z_offset height 0.1 Face.zLow
        (triangles (barVertices x_offset z_offset height 0.1))
      = [(⟨x_offset + 0.1, height, z_offset⟩, ⟨x_offset, 0.0, z_offset⟩,
            ⟨x_offset, height, z_offset⟩),
          (⟨x_offset + 0.1, height, z_offset⟩, ⟨x_offset + 0.1, 0.0, z_offset⟩,
            ⟨x_offset, 0.0, z_offset⟩)] := by
  have hh' : ¬ (0 = height) := fun h => hh h.symm
  norm_num [barVertices, triangles, trianglesOn, onFace, List.filter_cons, hh, hh']

/-- The triangles of a bar in the plane of the side face at `z = z_offset + 0.1`. -/
theorem trianglesOn_zHigh (x_offset z_offset height : ℚ) (hh : height ≠ 0) :
    trianglesOn x_offset z_offset height 0.1 Face.zHigh
        (triangles (barVertices x_offset z_offset height 0.1))
      = [(⟨x_offset, height, z_offset + 0.1⟩, ⟨x_offset, 0.0, z_offset + 0.1⟩,
            ⟨x_offset + 0.1, 0.0, z_offset + 0.1⟩),
          (⟨x_offset + 0.1, height, z_offset + 0.1⟩, ⟨x_offset, height, z_offset + 0.1⟩,
            ⟨x_offset + 0.1, 0.0, z_offset + 0.1⟩)] := by
  have hh' : ¬ (0 = height) := fun h => hh h.symm
  norm_num [barVertices, triangles, trianglesOn, onFace, List.filter_cons, hh, hh']

/-- The triangles of a bar in the plane of the side face at `x = x_offset + 0.1`. -/
theorem trianglesOn_xHigh (x_offset z_offset height : ℚ) (hh : height ≠ 0) :
    trianglesOn x_offset z_offset height 0.1 Face.xHigh
        (triangles (barVertices x_offset z_offset height 0.1))
      = [(⟨x_offset + 0.1, height, z_offset + 0.1⟩, ⟨x_offset + 0.1, 0.0, z_offset⟩,
            ⟨x_offset + 0.1, height, z_offset⟩),
          (⟨x_offset + 0.1, 0.0, z_offset⟩, ⟨x_offset + 0.1, height, z_offset + 0.1⟩,
            ⟨x_offset + 0.1, 0.0, z_offset + 0.1⟩)] := by
  have hh' : ¬ (0 = height) := fun h => hh h.symm
  norm_num [barVertices, triangles, trianglesOn, onFace, List.filter_cons, hh, hh']

/-- The two triangles in the plane of the side face at `x = x_offset` cover the
face. -/
theorem cover_xLow (x_offset z_offset height : ℚ) (hh : height ≠ 0) (u v : ℚ)
    (hu0 : 0 ≤ u) (hu1 : u ≤ 1) (hv0 : 0 ≤ v) (hv1 : v ≤ 1) :
    ∃ t ∈ trianglesOn x_offset z_offset height 0.1 Face.xLow
        (triangles (barVertices x_offset z_offset height 0.1)),
      inTriangle (facePoint x_offset z_offset height 0.1 Face.xLow u v) t := by
  rw [trianglesOn_xLow x_offset z_offset height hh]
  by_cases h : u ≤ v
  · refine ⟨_, List.mem_cons_self _ _, 1 - v, v - u, u, by linarith, by linarith, hu0,
      by ring, ?_, ?_, ?_⟩ <;> simp only [facePoint] <;> ring
  · refine ⟨_, List.mem_cons_of_mem _ (List.mem_cons_self _ _), 1 - u, v, u - v,
      by linarith, hv0, by linarith, by ring, ?_, ?_, ?_⟩ <;> simp only [facePoint] <;> ring

/-- The two triangles in the plane of the side face at `x = x_offset + 0.1` cover
the face. -/
theorem cover_xHigh (x_offset z_offset height : ℚ) (hh : height ≠ 0) (u v : ℚ)
    (hu0 : 0 ≤ u) (hu1 : u ≤ 1) (hv0 : 0 ≤ v) (hv1 : v ≤ 1) :
    ∃ t ∈ trianglesOn x_offset z_offset height 0.1 Face.xHigh
        (triangles (barVertices x_offset z_offset height 0.1)),
      inTriangle (facePoint x_offset z_offset height 0.1 Face.xHigh u v) t := by
  rw [trianglesOn_xHigh x_offset z_offset height hh]
  by_cases h : v ≤ u
  · refine ⟨_, List.mem_cons_self _ _, v, 1 - u, u - v, hv0, by linarith, by linarith,
      by ring, ?_, ?_, ?_⟩ <;> simp only [facePoint] <;> ring
  · refine ⟨_, List.mem_cons_of_mem _ (List.mem_cons_self _ _), 1 - v, u, v - u,
      by linarith, hu0, by linarith, by ring, ?_, ?_, ?_⟩ <;> simp only [facePoint] <;> ring

/-- The two triangles in the plane of the side face at `z = z_offset` cover the
face. -/
theorem cover_zLow (x_offset z_offset height : ℚ) (hh : height ≠ 0) (u v : ℚ)
    (hu0 : 0 ≤ u) (hu1 : u ≤ 1) (hv0 : 0 ≤ v) (hv1 : v ≤ 1) :
    ∃ t ∈ trianglesOn x_offset z_offset height 0.1 Face.zLow
        (triangles (barVertices x_offset z_offset height 0.1)),
      inTriangle (facePoint x_offset z_offset height 0.1 Face.zLow u v) t := by
  rw [trianglesOn_zLow x_offset z_offset height hh]
  by_cases h : u ≤ v
  · refine ⟨_, List.mem_cons_self _ _, u, 1 - v, v - u, hu0, by linarith, by linarith,
      by ring, ?_, ?_, ?_⟩ <;> simp only [facePoint] <;> ring
  · refine ⟨_, List.mem_cons_of_mem _ (List.mem_cons_self _ _), v, u - v, 1 - u,
      hv0, by linarith, by linarith, by ring, ?_, ?_, ?_⟩ <;> simp only [facePoint] <;> ring

/-- The two triangles in the plane of the side face at `z = z_offset + 0.1` cover
the face. -/
theorem cover_zHigh (x_offset z_offset height : ℚ) (hh : height ≠ 0) (u v : ℚ)
    (hu0 : 0 ≤ u) (hu1 : u ≤ 1) (hv0 : 0 ≤ v) (hv1 : v ≤ 1) :
    ∃ t ∈ trianglesOn x_offset z_offset height 0.1 Face.zHigh
        (triangles (barVertices x_offset z_offset height 0.1)),
      inTriangle (facePoint x_offset z_offset height 0.1 Face.zHigh u v) t := by
  rw [trianglesOn_zHigh x_offset z_offset height hh]
  by_cases h : u + v ≤ 1
  · refine ⟨_, List.mem_cons_self _ _, v, 1 - u - v, u, hv0, by linarith, hu0,
      by ring, ?_, ?_, ?_⟩ <;> simp only [facePoint] <;> ring
  · refine ⟨_, List.mem_cons_of_mem _ (List.mem_cons_self _ _), u + v - 1, 1 - u, 1 - v,
      by linarith, by linarith, by linarith, by ring, ?_, ?_, ?_⟩ <;>
      simp only [facePoint] <;> ring

/-- The bottom face is covered by the first two of its four triangles and again
by the last two. -/
theorem cover_bottom (x_offset z_offset height : ℚ) (hh : height ≠ 0) (u v : ℚ)
    (hu0 : 0 ≤ u) (hu1 : u ≤ 1) (hv0 : 0 ≤ v) (hv1 : v ≤ 1) :
    (∃ t ∈ (trianglesOn x_offset z_offset height 0.1 Face.bottom
          (triangles (barVertices x_offset z_offset height 0.1))).take 2,
        inTriangle (facePoint x_offset z_offset height 0.1 Face.bottom u v) t)
    ∧ (∃ t ∈ (trianglesOn x_offset z_offset height 0.1 Face.bottom
          (triangles (barVertices x_offset z_offset height 0.1))).drop 2,
        inTriangle (facePoint x_offset z_offset height 0.1 Face.bottom u v) t) := by
  rw [trianglesOn_bottom x_offset z_offset height hh]
  constructor
  · by_cases h : v ≤ u
    · refine ⟨_, List.mem_cons_self _ _, v, 1 - u, u - v, hv0, by linarith, by linarith,
        by ring, ?_, ?_, ?_⟩ <;> simp only [facePoint] <;> ring
    · refine ⟨_, List.mem_cons_of_mem _ (List.mem_cons_self _ _), u, v - u, 1 - v,
        hu0, by linarith, by linarith, by ring, ?_, ?_, ?_⟩ <;>
        simp only [facePoint] <;> ring
  · by_cases h : 1 ≤ u + v
    · refine ⟨_, List.mem_cons_self _ _, 1 - u, 1 - v, u + v - 1, by linarith, by linarith,
        by linarith, by ring, ?_, ?_, ?_⟩ <;> simp only [facePoint] <;> ring
    · refine ⟨_, List.mem_cons_of_mem _ (List.mem_cons_self _ _), v, u, 1 - u - v,
        hv0, hu0, by linarith, by ring, ?_, ?_, ?_⟩ <;> simp only [facePoint] <;> ring

/-- The top face is covered by the first two of its four triangles and again by
the last two. -/
theorem cover_top (x_offset z_offset height : ℚ) (hh : height ≠ 0) (u v : ℚ)
    (hu0 : 0 ≤ u) (hu1 : u ≤ 1) (hv0 : 0 ≤ v) (hv1 : v ≤ 1) :
    (∃ t ∈ (trianglesOn x_offset z_offset height 0.1 Face.top
          (triangles (barVertices x_offset z_offset height 0.1))).take 2,
        inTriangle (facePoint x_offset z_offset height 0.1 Face.top u v) t)
    ∧ (∃ t ∈ (trianglesOn x_offset z_offset height 0.1 Face.top
          (triangles (barVertices x_offset z_offset height 0.1))).drop 2,
        inTriangle (facePoint x_offset z_offset height 0.1 Face.top u v) t) := by
  rw [trianglesOn_top x_offset z_offset height hh]
  constructor
  · by_cases h : v ≤ u
    · refine ⟨_, List.mem_cons_self _ _, v, u - v, 1 - u, hv0, by linarith, by linarith,
        by ring, ?_, ?_, ?_⟩ <;> simp only [facePoint] <;> ring
    · refine ⟨_, List.mem_cons_of_mem _ (List.mem_cons_self _ _), u, 1 - v, v - u,
        hu0, by linarith, by linarith, by ring, ?_, ?_, ?_⟩ <;>
        simp only [facePoint] <;> ring
  · by_cases h : u + v ≤ 1
    · refine ⟨_, List.mem_cons_self _ _, v, u, 1 - u - v, hv0, hu0, by linarith,
        by ring, ?_, ?_, ?_⟩ <;> simp only [facePoint] <;> ring
    · refine ⟨_, List.mem_cons_of_mem _ (List.mem_cons_self _ _), 1 - v, u + v - 1, 1 - u,
        by linarith, by linarith, by linarith, by ring, ?_, ?_, ?_⟩ <;>
        simp only [facePoint] <;> ring

/-- C15 (amended). Bar mesh faces: read as consecutive vertex triples, the 48
vertices of a bar of height other than 0 are 16 triangles.  Each of the four side
faces is covered by exactly two of them (six listed vertices): exactly two
triangles lie in the plane of the face, and every point of the face lies in one
of the two.  The bottom face and the top face are each covered twice (twelve
listed vertices): exactly four triangles lie in the plane of the face, every
point of the face lies in one of the first two, and every point lies in one of
the last two. -/
theorem draw_bar_faces (s : CVisualizationSpectrum)
    (x_offset z_offset height red green blue : ℚ) (hh : height ≠ 0) :
    ((triangles (s.draw_bar x_offset z_offset height red green blue).2.vertices).length = 16
    ∧ (trianglesOn x_offset z_offset height 0.1 Face.bottom
        (triangles (s.draw_bar x_offset z_offset height red green blue).2.vertices)).length = 4
    ∧ (trianglesOn x_offset z_offset height 0.1 Face.top
        (triangles (s.draw_bar x_offset z_offset height red green blue).2.vertices)).length = 4
    ∧ (trianglesOn x_offset z_offset height 0.1 Face.xLow
        (triangles (s.draw_bar x_offset z_offset height red green blue).2.vertices)).length = 2
    ∧ (trianglesOn x_offset z_offset height 0.1 Face.xHigh
        (triangles (s.draw_bar x_offset z_offset height red green blue).2.vertices)).length = 2
    ∧ (trianglesOn x_offset z_offset height 0.1 Face.zLow
        (triangles (s.draw_bar x_offset z_offset height red green blue).2.vertices)).length = 2
    ∧ (trianglesOn x_offset z_offset height 0.1 Face.zHigh
        (triangles (s.draw_bar x_offset z_offset height red green blue).2.vertices)).length
          = 2)
    ∧ ∀ u v : ℚ, 0 ≤ u → u ≤ 1 → 0 ≤ v → v ≤ 1 →
      (∃ t ∈ trianglesOn x_offset z_offset height 0.1 Face.xLow
          (triangles (s.draw_bar x_offset z_offset height red green blue).2.vertices),
        inTriangle (facePoint x_offset z_offset height 0.1 Face.xLow u v) t)
      ∧ (∃ t ∈ trianglesOn x_offset z_offset height 0.1 Face.xHigh
          (triangles (s.draw_bar x_offset z_offset height red green blue).2.vertices),
        inTriangle (facePoint x_offset z_offset height 0.1 Face.xHigh u v) t)
      ∧ (∃ t ∈ trianglesOn x_offset z_offset height 0.1 Face.zLow
          (triangles (s.draw_bar x_offset z_offset height red green blue).2.vertices),
        inTriangle (facePoint x_offset z_offset height 0.1 Face.zLow u v) t)
      ∧ (∃ t ∈ trianglesOn x_offset z_offset height 0.1 Face.zHigh
          (triangles (s.draw_bar x_offset z_offset height red green blue).2.vertices),
        inTriangle (facePoint x_offset z_offset height 0.1 Face.zHigh u v) t)
      ∧ (∃ t ∈ (trianglesOn x_offset z_offset height 0.1 Face.bottom
          (triangles (s.draw_bar x_offset z_offset height red green blue).2.vertices)).take 2,
        inTriangle (facePoint x_offset z_offset height 0.1 Face.bottom u v) t)
      ∧ (∃ t ∈ (trianglesOn x_offset z_offset height 0.1 Face.bottom
          (triangles (s.draw_bar x_offset z_offset height red green blue).2.vertices)).drop 2,
        inTriangle (facePoint x_offset z_offset height 0.1 Face.bottom u v) t)
      ∧ (∃ t ∈ (trianglesOn x_offset z_offset height 0.1 Face.top
          (triangles (s.draw_bar x_offset z_offset height red green blue).2.vertices)).take 2,
        inTriangle (facePoint x_offset z_offset height 0.1 Face.top u v) t)
      ∧ (∃ t ∈ (trianglesOn x_offset z_offset height 0.1 Face.top
          (triangles (s.draw_bar x_offset z_offset height red green blue).2.vertices)).drop 2,
        inTriangle (facePoint x_offset z_offset height 0.1 Face.top u v) t) := by
  have hv : (s.draw_bar x_offset z_offset height red green blue).2.vertices
      = barVertices x_offset z_offset height 0.1 := rfl
  rw [hv]
  refine ⟨⟨rfl, ?_, ?_, ?_, ?_, ?_, ?_⟩, fun u v hu0 hu1 hv0 hv1 => ?_⟩
  · rw [trianglesOn_bottom x_offset z_offset height hh]; rfl
  · rw [trianglesOn_top x_offset z_offset height hh]; rfl
  · rw [trianglesOn_xLow x_offset z_offset height hh]; rfl
  · rw [trianglesOn_xHigh x_offset z_offset height hh]; rfl
  · rw [trianglesOn_zLow x_offset z_offset height hh]; rfl
  · rw [trianglesOn_zHigh x_offset z_offset height hh]; rfl
  · exact ⟨cover_xLow x_offset z_offset height hh u v hu0 hu1 hv0 hv1,
      cover_xHigh x_offset z_offset height hh u v hu0 hu1 hv0 hv1,
      cover_zLow x_offset z_offset height hh u v hu0 hu1 hv0 hv1,
      cover_zHigh x_offset z_offset height hh u v hu0 hu1 hv0 hv1,
      (cover_bottom x_offset z_offset height hh u v hu0 hu1 hv0 hv1).1,
      (cover_bottom x_offset z_offset height hh u v hu0 hu1 hv0 hv1).2,
      (cover_top x_offset z_offset height hh u v hu0 hu1 hv0 hv1).1,
      (cover_top x_offset z_offset height hh u v hu0 hu1 hv0 hv1).2⟩

/-- The amended C15 on the bar of height 2 at the offsets `(-1.6, 1.6)`: 16
triangles, two of them in the plane of the side face at `x = -1.6`, and the point
of that face at half its height and a quarter of its depth lies in one of the
two. -/
theorem draw_bar_faces_witness :
    (triangles (exampleState.draw_bar (-1.6) 1.6 2 1 0 0).2.vertices).length = 16
    ∧ (trianglesOn (-1.6) 1.6 2 0.1 Face.xLow
        (triangles (exampleState.draw_bar (-1.6) 1.6 2 1 0 0).2.vertices)).length = 2
    ∧ (∃ t ∈ trianglesOn (-1.6) 1.6 2 0.1 Face.xLow
          (triangles (exampleState.draw_bar (-1.6) 1.6 2 1 0 0).2.vertices),
        inTriangle (facePoint (-1.6) 1.6 2 0.1 Face.xLow (1 / 2) (1 / 4)) t) :=
  ⟨(draw_bar_faces exampleState (-1.6) 1.6 2 1 0 0 (by norm_num)).1.1,
    (draw_bar_faces exampleState (-1.6) 1.6 2 1 0 0 (by norm_num)).1.2.2.2.1,
    ((draw_bar_faces exampleState (-1.6) 1.6 2 1 0 0 (by norm_num)).2 (1 / 2) (1 / 4)
      (by norm_num) (by norm_num) (by norm_num) (by norm_num)).1⟩

/-- The sample component is in the mode `GL_TRIANGLES`. -/
theorem exampleState_mode : exampleState.m_mode = GLenum.GL_TRIANGLES := by
  rfl

/-- C16, the claim fails on the count of distinct multipliers: in the mode
`GL_TRIANGLES` the first and the fourth side face of a white bar have the same
colour, `(0.5, 0.5, 0.5)`, so the four side faces use three distinct multipliers. -/
theorem first_and_fourth_side_share_multiplier :
    exampleState.m_mode = GLenum.GL_TRIANGLES
    ∧ (exampleState.draw_bar 0 0 1 1 1 1).2.colors[12]? = some ⟨0.5, 0.5, 0.5⟩
    ∧ (exampleState.draw_bar 0 0 1 1 1 1).2.colors[30]? = some ⟨0.5, 0.5, 0.5⟩ := by
  have hm : exampleState.m_mode = GLenum.GL_TRIANGLES := exampleState_mode
  refine ⟨hm, ?_, ?_⟩ <;>
    norm_num [CVisualizationSpectrum.draw_bar, hm, barColors]

/-- C16 (amended). Side shading in the mode `GL_TRIANGLES`: for every colour the
vertices 0 to 11 (bottom) and 36 to 47 (top) carry exactly `(red, green, blue)`,
and the side faces in the order of generation (vertices 12 to 17, 18 to 23, 24 to
29, 30 to 35) carry the colour multiplied in all three components by 0.5, 0.25,
0.75 and 0.5: four multipliers with three distinct values, the first and the
fourth being equal. -/
theorem draw_bar_side_shading (t : CVisualizationSpectrum)
    (h : t.m_mode = GLenum.GL_TRIANGLES) (x_offset z_offset height red green blue : ℚ) :
    (t.draw_bar x_offset z_offset height red green blue).2.colors
      = List.replicate 12 ⟨red, green, blue⟩
        ++ List.replicate 6 ⟨red * 0.5, green * 0.5, blue * 0.5⟩
        ++ List.replicate 6 ⟨red * 0.25, green * 0.25, blue * 0.25⟩
        ++ List.replicate 6 ⟨red * 0.75, green * 0.75, blue * 0.75⟩
        ++ List.replicate 6 ⟨red * 0.5, green * 0.5, blue * 0.5⟩
        ++ List.replicate 12 ⟨red, green, blue⟩ := by
  simp only [CVisualizationSpectrum.draw_bar, h, if_true, barColors]
  rfl

/-- The amended C16 on the sample component, which is in the mode
`GL_TRIANGLES`: the colours of a bar of colour `(1, 0.5, 0.25)`. -/
theorem draw_bar_side_shading_witness :
    (exampleState.draw_bar 0 0 1 1 0.5 0.25).2.colors
      = List.replicate 12 ⟨1, 0.5, 0.25⟩
        ++ List.replicate 6 ⟨1 * 0.5, 0.5 * 0.5, 0.25 * 0.5⟩
        ++ List.replicate 6 ⟨1 * 0.25, 0.5 * 0.25, 0.25 * 0.25⟩
        ++ List.replicate 6 ⟨1 * 0.75, 0.5 * 0.75, 0.25 * 0.75⟩
        ++ List.replicate 6 ⟨1 * 0.5, 0.5 * 0.5, 0.25 * 0.5⟩
        ++ List.replicate 12 ⟨1, 0.5, 0.25⟩ :=
  draw_bar_side_shading exampleState exampleState_mode 0 0 1 1 0.5 0.25

/-! ## Settings out of range -/

/-- The call `SetSetting("bar_height", v)` is `SetBarHeightSetting(v)`. -/
theorem SetSetting_bar_height (env : Env) (s : CVisualizationSpectrum) (v : Int) :
    (s.SetSetting env "bar_height" ⟨false, v⟩).2 = s.SetBarHeightSetting env v := by
  have e : ("bar_height" : String).isEmpty = false := by decide
  simp [CVisualizationSpectrum.SetSetting, e]

/-- The call `SetSetting("rotation_speed", v)` is `SetRotationSpeedSetting(v)`. -/
theorem SetSetting_rotation_speed (env : Env) (s : CVisualizationSpectrum) (v : Int) :
    (s.SetSetting env "rotation_speed" ⟨false, v⟩).2 = s.SetRotationSpeedSetting v := by
  have e : ("rotation_speed" : String).isEmpty = false := by decide
  have n1 : ¬ (("rotation_speed" : String) = "bar_height") := by decide
  have n2 : ¬ (("rotation_speed" : String) = "speed") := by decide
  have n3 : ¬ (("rotation_speed" : String) = "mode") := by decide
  have n4 : ¬ (("rotation_speed" : String) = "rotation_angle") := by decide
  have n5 : ¬ (("rotation_speed" : String) = "bar_color_type") := by decide
  simp [CVisualizationSpectrum.SetSetting, e, n1, n2, n3, n4, n5]

/-- The call `SetSetting("rotation_angle", v)` stores `v` in `m_y_fixedAngle`. -/
theorem SetSetting_rotation_angle (env : Env) (s : CVisualizationSpectrum) (v : Int) :
    (s.SetSetting env "rotation_angle" ⟨false, v⟩).2 = { s with m_y_fixedAngle := (v : ℚ) } := by
  have e : ("rotation_angle" : String).isEmpty = false := by decide
  have n1 : ¬ (("rotation_angle" : String) = "bar_height") := by decide
  have n2 : ¬ (("rotation_angle" : String) = "speed") := by decide
  have n3 : ¬ (("rotation_angle" : String) = "mode") := by decide
  simp [CVisualizationSpectrum.SetSetting, e, n1, n2, n3]

/-- C17, the claim fails above the ranges (and below the range of
`rotation_speed`): on the sample host, after `bar_height` 2 the scale is
`2 / log(256)`, and `bar_height` 5 makes it `0.5 / log(256)`, neither the prior
value nor the value `0.33 / log(256)` of the nearest key 4; after `rotation_speed`
4 the speed is 10, and both `rotation_speed` 7 and `rotation_speed` -7 make it 0.5,
neither the prior value nor the value of the nearest key (10 and 0.015625). -/
theorem out_of_range_settings_counterexample :
    ((exampleState.SetSetting exampleEnv "bar_height" ⟨false, 2⟩).2.m_scale = 2 / 5.545177
      ∧ (((exampleState.SetSetting exampleEnv "bar_height" ⟨false, 2⟩).2.SetSetting exampleEnv
          "bar_height" ⟨false, 5⟩).2.m_scale = 0.5 / 5.545177)
      ∧ (0.5 / 5.545177 : ℚ) ≠ 2 / 5.545177 ∧ (0.5 / 5.545177 : ℚ) ≠ 0.33 / 5.545177)
    ∧ ((exampleState.SetSetting exampleEnv "rotation_speed" ⟨false, 4⟩).2.m_y_speed = 10
      ∧ (((exampleState.SetSetting exampleEnv "rotation_speed" ⟨false, 4⟩).2.SetSetting
          exampleEnv "rotation_speed" ⟨false, 7⟩).2.m_y_speed = 0.5)
      ∧ (((exampleState.SetSetting exampleEnv "rotation_speed" ⟨false, 4⟩).2.SetSetting
          exampleEnv "rotation_speed" ⟨false, -7⟩).2.m_y_speed = 0.5)
      ∧ (0.5 : ℚ) ≠ 10 ∧ (0.5 : ℚ) ≠ 0.015625) := by
  refine ⟨⟨?_, ?_, by norm_num, by norm_num⟩, ⟨?_, ?_, ?_, by norm_num, by norm_num⟩⟩
  · rw [SetSetting_bar_height]
    norm_num [CVisualizationSpectrum.SetBarHeightSetting, exampleEnv]
  · rw [SetSetting_bar_height, SetSetting_bar_height]
    norm_num [CVisualizationSpectrum.SetBarHeightSetting, exampleEnv]
  · rw [SetSetting_rotation_speed]
    norm_num [CVisualizationSpectrum.SetRotationSpeedSetting]
  · rw [SetSetting_rotation_speed, SetSetting_rotation_speed]
    norm_num [CVisualizationSpectrum.SetRotationSpeedSetting]
  · rw [SetSetting_rotation_speed, SetSetting_rotation_speed]
    norm_num [CVisualizationSpectrum.SetRotationSpeedSetting]

/-- C17 (amended). Out-of-range numeric settings fall back to the entry of the
key 0: for every integer `v` outside 0..4, `SetSetting("bar_height", v)` sets the
height scale to `0.5 / log(256)`, and for every integer `v` outside -4..4,
`SetSetting("rotation_speed", v)` sets the Y speed to 0.5, whatever the prior
value was. -/
theorem out_of_range_settings_fall_back :
    (∀ (env : Env) (s : CVisualizationSpectrum) (v : Int), (v < 0 ∨ 4 < v) →
        (s.SetSetting env "bar_height" ⟨false, v⟩).2.m_scale = 0.5 / env.log 256)
    ∧ (∀ (env : Env) (s : CVisualizationSpectrum) (v : Int), (v < -4 ∨ 4 < v) →
        (s.SetSetting env "rotation_speed" ⟨false, v⟩).2.m_y_speed = 0.5) := by
  constructor
  · intro env s v hv
    rw [SetSetting_bar_height]
    have h1 : v ≠ 1 := by omega
    have h2 : v ≠ 2 := by omega
    have h3 : v ≠ 3 := by omega
    have h4 : v ≠ 4 := by omega
    simp only [CVisualizationSpectrum.SetBarHeightSetting, h1, h2, h3, h4, if_false]
    norm_num
  · intro env s v hv
    rw [SetSetting_rotation_speed]
    have h1 : v ≠ 1 := by omega
    have h2 : v ≠ 2 := by omega
    have h3 : v ≠ 3 := by omega
    have h4 : v ≠ 4 := by omega
    have h5 : v ≠ -1 := by omega
    have h6 : v ≠ -2 := by omega
    have h7 : v ≠ -3 := by omega
    have h8 : v ≠ -4 := by omega
    simp only [CVisualizationSpectrum.SetRotationSpeedSetting, h1, h2, h3, h4, h5, h6, h7, h8,
      if_false]

/-- The amended C17 on the sample component: `bar_height` 5 gives the scale
`0.5 / log(256)` and `rotation_speed` -7 gives the speed 0.5. -/
theorem out_of_range_settings_fall_back_witness :
    (exampleState.SetSetting exampleEnv "bar_height" ⟨false, 5⟩).2.m_scale
        = 0.5 / exampleEnv.log 256
    ∧ (exampleState.SetSetting exampleEnv "rotation_speed" ⟨false, -7⟩).2.m_y_speed = 0.5 :=
  ⟨out_of_range_settings_fall_back.1 exampleEnv exampleState 5 (Or.inr (by decide)),
    out_of_range_settings_fall_back.2 exampleEnv exampleState (-7) (Or.inl (by decide))⟩

/-! ## Who writes the array -/

theorem clearColumn_fold (h : Grid) (x : Nat) (n : Nat) (y' x' : Nat) :
    (List.range n).foldl (fun g y => setCell g y x 0.0) h y' x'
      = if x' = x ∧ y' < n then 0 else h y' x' := by
  induction n generalizing y' x' with
  | zero => simp
  | succ n ih =>
    rw [List.range_succ, List.foldl_append]
    simp only [List.foldl_cons, List.foldl_nil, setCell]
    rw [ih]
    by_cases h1 : x' = x
    · by_cases h2 : y' = n
      · subst h1 h2; norm_num
      · have : y' < n + 1 ↔ y' < n := by omega
        simp [h1, h2, this]
    · simp [h1]

theorem clearHeights_fold (h : Grid) (m : Nat) (y' x' : Nat) :
    (List.range m).foldl
        (fun g x => (List.range NUM_BARS).foldl (fun g y => setCell g y x 0.0) g) h y' x'
      = if x' < m ∧ y' < NUM_BARS then 0 else h y' x' := by
  induction m generalizing y' x' with
  | zero => simp
  | succ m ih =>
    rw [List.range_succ m, List.foldl_append]
    simp only [List.foldl_cons, List.foldl_nil]
    rw [clearColumn_fold, ih]
    by_cases h1 : x' = m
    · subst h1
      by_cases h2 : y' < NUM_BARS
      · simp [h2]
      · simp [h2]
    · have : x' < m + 1 ↔ x' < m := by omega
      simp [h1, this]

/-- The loops of `Start` set the 256 cells of the array to 0. -/
theorem clearHeights_apply (h : Grid) (y' x' : Nat) :
    clearHeights h y' x' = if x' < NUM_BARS ∧ y' < NUM_BARS then 0 else h y' x' :=
  clearHeights_fold h NUM_BARS y' x'

/-- C18, the claim fails for `Start`: after an `AudioData` call with the length 0
the cell `[0][0]` of the sample component holds -1, and a successful `Start` sets
it to 0. -/
theorem Start_clears_heights :
    (exampleState.AudioData (fun _ => 0) 0 (fun _ => 0) 0).1.m_heights 0 0 = -1
    ∧ ((exampleState.AudioData (fun _ => 0) 0 (fun _ => 0) 0).1.Start exampleEnv 2 44100 16
        "song" true true (1, 2)).2.1.m_heights 0 0 = 0
    ∧ ((exampleState.AudioData (fun _ => 0) 0 (fun _ => 0) 0).1.Start exampleEnv 2 44100 16
        "song" true true (1, 2)).2.1.m_heights 0 0
      ≠ (exampleState.AudioData (fun _ => 0) 0 (fun _ => 0) 0).1.m_heights 0 0 := by
  have h1 : (exampleState.AudioData (fun _ => 0) 0 (fun _ => 0) 0).1.m_heights 0 0 = -1 :=
    (AudioData_insufficient exampleState (fun _ => 0) 0 (fun _ => 0) 0 (by decide)
      (by decide)).1 0 (by decide)
  have h2 : ((exampleState.AudioData (fun _ => 0) 0 (fun _ => 0) 0).1.Start exampleEnv 2 44100
      16 "song" true true (1, 2)).2.1.m_heights 0 0 = 0 := by
    simp only [CVisualizationSpectrum.Start, Bool.not_true, Bool.or_self, Bool.false_eq_true,
      if_false]
    rw [clearHeights_apply]
    simp
  refine ⟨h1, h2, ?_⟩
  rw [h1, h2]
  norm_num

/-- C18 (amended). Besides the audio update, only a successful `Start` writes the
array, and it sets all 256 cells to 0; `Stop`, `Render`, `GetInfo`, `SetSetting`
and a failed `Start` leave every cell as it was, for every state and every
argument. -/
theorem heights_written_only_by_AudioData_and_Start :
    (∀ (env : Env) (s : CVisualizationSpectrum), (s.Stop env).m_heights = s.m_heights)
    ∧ (∀ s : CVisualizationSpectrum, s.Render.1.m_heights = s.m_heights)
    ∧ (∀ (env : Env) (s : CVisualizationSpectrum),
        (step env s Call.GetInfo).m_heights = s.m_heights)
    ∧ (∀ (env : Env) (s : CVisualizationSpectrum) (settingName : String)
        (settingValue : CSettingValue),
        (s.SetSetting env settingName settingValue).2.m_heights = s.m_heights)
    ∧ (∀ (env : Env) (s : CVisualizationSpectrum) (channels samplesPerSec bitsPerSample : Int)
        (songName : String) (LoadShaderFiles CompileAndLink : Bool) (glGenBuffers : Nat × Nat),
        ¬ (LoadShaderFiles = true ∧ CompileAndLink = true) →
        (s.Start env channels samplesPerSec bitsPerSample songName LoadShaderFiles
          CompileAndLink glGenBuffers).2.1.m_heights = s.m_heights)
    ∧ (∀ (env : Env) (s : CVisualizationSpectrum) (channels samplesPerSec bitsPerSample : Int)
        (songName : String) (glGenBuffers : Nat × Nat) (y x : Nat), y ≤ 15 → x ≤ 15 →
        (s.Start env channels samplesPerSec bitsPerSample songName true true
          glGenBuffers).2.1.m_heights y x = 0) := by
  refine ⟨?_, ?_, ?_, ?_, ?_, ?_⟩
  · intro env s
    rw [Stop_frame]
  · intro s
    rw [Render_frame]
  · intro env s
    rfl
  · intro env s n v
    rw [SetSetting_frame]
  · intro env s c r b n l k g hf
    unfold CVisualizationSpectrum.Start
    cases l <;> cases k <;> simp at hf ⊢
  · intro env s c r b n g y x hy hx
    simp only [CVisualizationSpectrum.Start, Bool.not_true, Bool.or_self, Bool.false_eq_true,
      if_false]
    rw [clearHeights_apply]
    have hx' : x < NUM_BARS := by show x < 16; omega
    have hy' : y < NUM_BARS := by show y < 16; omega
    simp [hx', hy']

/-- The amended C18 on the sample component: a failed `Start` leaves the array
as it was, a successful one clears the cell `[3][5]`. -/
theorem heights_written_only_by_AudioData_and_Start_witness :
    (exampleState.Start exampleEnv 2 44100 16 "song" true false (1, 2)).2.1.m_heights
        = exampleState.m_heights
    ∧ (exampleState.Start exampleEnv 2 44100 16 "song" true true (1, 2)).2.1.m_heights 3 5
        = 0 :=
  ⟨heights_written_only_by_AudioData_and_Start.2.2.2.2.1 exampleEnv exampleState 2 44100 16
      "song" true false (1, 2) (by decide),
    heights_written_only_by_AudioData_and_Start.2.2.2.2.2 exampleEnv exampleState 2 44100 16
      "song" (1, 2) 3 5 (by decide) (by decide)⟩

/-! ## The layout of a frame -/

/-- C19. Frame layout: `Render` on a Started component issues exactly 256 draw
calls in row-major order (the row `y` outer, the column `x` inner): the call at
the index `16 * y + x` is the bar built by `draw_bar` with
`x_offset = -1.6 + 0.2 * x`, `z_offset = -1.6 + 0.2 * (16 - y)`, the height
`m_heights[y][x]` and the colour of the selected scheme for the column `x` and the
row `y`; hence the `z_offset` is strictly decreasing in the row index. -/
theorem Render_frame_layout (s : CVisualizationSpectrum) (hs : s.m_startOK = true) :
    s.Render.2.length = 256
    ∧ (∀ y x : Nat, y < 16 → x < 16 →
        s.Render.2[16 * y + x]?
          = some (s.draw_bar (-1.6 + 0.2 * (x : ℚ)) (-1.6 + 0.2 * (16 - (y : ℚ)))
              (s.m_heights y x)
              (barColor s.m_bar_color_type x (1 - (y : ℚ) / 16) ((y : ℚ) / 16)).1
              (barColor s.m_bar_color_type x (1 - (y : ℚ) / 16) ((y : ℚ) / 16)).2.1
              (barColor s.m_bar_color_type x (1 - (y : ℚ) / 16) ((y : ℚ) / 16)).2.2).2)
    ∧ (∀ y y' : Nat, y < y' →
        (-1.6 + 0.2 * (16 - (y' : ℚ)) : ℚ) < -1.6 + 0.2 * (16 - (y : ℚ))) := by
  refine ⟨(Render_calls s hs).1, fun y x hy hx => ?_, fun y y' hyy => ?_⟩
  · rw [(Render_calls s hs).2 y x hy hx, barCall_eq s y x (by omega)]
  · have h : (y : ℚ) < (y' : ℚ) := by exact_mod_cast hyy
    linarith

/-- The claim C19 on the sample component once Started: a frame has 256 draw
calls. -/
theorem Render_frame_layout_witness :
    (CVisualizationSpectrum.Render { exampleState with m_startOK := true }).2.length = 256 :=
  (Render_frame_layout { exampleState with m_startOK := true } rfl).1

/-! ## The angle of the rotation about the Y axis -/

theorem foldl_invariant_mem {α β : Type} (P : α → Prop) (Q : β → Prop) (f : α → β → α)
    (l : List β) (a : α) (ha : P a) (hl : ∀ b ∈ l, Q b)
    (hf : ∀ a b, Q b → P a → P (f a b)) : P (l.foldl f a) := by
  induction l generalizing a with
  | nil => exact ha
  | cons b l ih =>
    exact ih (f a b) (hf a b (hl b (List.mem_cons_self b l)) ha)
      (fun c hc => hl c (List.mem_cons_of_mem b hc))

/-- The speeds of the table of `SetRotationSpeedSetting` lie in `(0, 10]`. -/
theorem SetRotationSpeedSetting_speed_bounds (s : CVisualizationSpectrum) (v : Int) :
    0 < (s.SetRotationSpeedSetting v).m_y_speed ∧ (s.SetRotationSpeedSetting v).m_y_speed ≤ 10 := by
  unfold CVisualizationSpectrum.SetRotationSpeedSetting
  split_ifs <;> norm_num

/-- One wrap of an angle below 720: the result lies in `[0, 360)`. -/
theorem wrap_once_bounds (a : ℚ) (h0 : 0 ≤ a) (h720 : a < 720) :
    0 ≤ (if a ≥ 360.0 then a - 360.0 else a) ∧ (if a ≥ 360.0 then a - 360.0 else a) < 360 := by
  by_cases h : a ≥ 360.0
  · rw [if_pos h]
    norm_num at h ⊢
    constructor <;> linarith
  · rw [if_neg h]
    norm_num at h
    exact ⟨h0, h⟩

/-- The invariant behind the wrap of the Y angle: the angle lies in `[0, 710)`,
the speed in `(0, 10]` and the fixed angle is at most 709; it is kept by every
call that does not configure a `rotation_angle` above 709. -/
theorem step_y_angle (env : Env) (s : CVisualizationSpectrum) (c : Call)
    (hc : rotationAngleAtMost 709 c = true)
    (h : 0 ≤ s.m_y_angle ∧ s.m_y_angle < 710 ∧ 0 < s.m_y_speed ∧ s.m_y_speed ≤ 10
      ∧ s.m_y_fixedAngle ≤ 709) :
    0 ≤ (step env s c).m_y_angle ∧ (step env s c).m_y_angle < 710
    ∧ 0 < (step env s c).m_y_speed ∧ (step env s c).m_y_speed ≤ 10
    ∧ (step env s c).m_y_fixedAngle ≤ 709 := by
  obtain ⟨h1, h2, h3, h4, h5⟩ := h
  cases c with
  | Start c r b n l k g =>
    simp only [step]
    rw [Start_frame]; exact ⟨h1, h2, h3, h4, h5⟩
  | Stop =>
    simp only [step]
    rw [Stop_frame]; exact ⟨h1, h2, h3, h4, h5⟩
  | Render =>
    simp only [step]
    by_cases hs : s.m_startOK = true
    · have hsp : s.Render.1.m_y_speed = s.m_y_speed := by rw [Render_frame]
      have hfx : s.Render.1.m_y_fixedAngle = s.m_y_fixedAngle := by rw [Render_frame]
      rw [(Render_angles s hs).2.1, hsp, hfx]
      refine ⟨?_, ?_, h3, h4, h5⟩
      · by_cases hf : s.m_y_fixedAngle < 0.0
        · rw [if_pos hf]
          exact (wrap_once_bounds _ (by linarith) (by linarith)).1
        · rw [if_neg hf]
          norm_num at hf
          exact hf
      · by_cases hf : s.m_y_fixedAngle < 0.0
        · rw [if_pos hf]
          have := (wrap_once_bounds (s.m_y_angle + s.m_y_speed) (by linarith)
            (by linarith)).2
          linarith
        · rw [if_neg hf]
          linarith
    · have hs' : s.m_startOK = false := by simpa using hs
      rw [Render_stopped s hs']; exact ⟨h1, h2, h3, h4, h5⟩
  | AudioData a al f fl =>
    simp only [step]
    rw [AudioData_frame]; exact ⟨h1, h2, h3, h4, h5⟩
  | GetInfo => exact ⟨h1, h2, h3, h4, h5⟩
  | SetSetting n v =>
    simp only [step]
    have hang : (s.SetSetting env n v).2.m_y_angle = s.m_y_angle := by rw [SetSetting_frame]
    rw [hang]
    refine ⟨h1, h2, ?_⟩
    unfold CVisualizationSpectrum.SetSetting
    split_ifs with e1 e2 e3 e4 e5 e6 e7
    · exact ⟨h3, h4, h5⟩
    · simp only [SetBarHeightSetting_m_y_speed, SetBarHeightSetting_m_y_fixedAngle]
      exact ⟨h3, h4, h5⟩
    · simp only [SetSpeedSetting_m_y_speed, SetSpeedSetting_m_y_fixedAngle]
      exact ⟨h3, h4, h5⟩
    · simp only [SetModeSetting_m_y_speed, SetModeSetting_m_y_fixedAngle]
      exact ⟨h3, h4, h5⟩
    · refine ⟨h3, h4, ?_⟩
      simp only [rotationAngleAtMost, e5, if_true, decide_eq_true_eq] at hc
      show ((v.GetInt : Int) : ℚ) ≤ 709
      exact_mod_cast hc
    · simp only [SetBarColorSetting_m_y_speed, SetBarColorSetting_m_y_fixedAngle]
      exact ⟨h3, h4, h5⟩
    · simp only [SetRotationSpeedSetting_m_y_fixedAngle]
      exact ⟨(SetRotationSpeedSetting_speed_bounds s v.GetInt).1,
        (SetRotationSpeedSetting_speed_bounds s v.GetInt).2, h5⟩
    · exact ⟨h3, h4, h5⟩

theorem ctor_y_angle (env : Env) (g : Grid) (hhost : env.GetSettingInt "rotation_angle" ≤ 709) :
    0 ≤ (CVisualizationSpectrum.ctor env g).1.m_y_angle
    ∧ (CVisualizationSpectrum.ctor env g).1.m_y_angle < 710
    ∧ 0 < (CVisualizationSpectrum.ctor env g).1.m_y_speed
    ∧ (CVisualizationSpectrum.ctor env g).1.m_y_speed ≤ 10
    ∧ (CVisualizationSpectrum.ctor env g).1.m_y_fixedAngle ≤ 709 := by
  have hq : ((env.GetSettingInt "rotation_angle" : Int) : ℚ) ≤ 709 := by exact_mod_cast hhost
  simp only [CVisualizationSpectrum.ctor, SetRotationSpeedSetting_m_y_angle,
    SetBarColorSetting_m_y_angle, SetModeSetting_m_y_angle, SetSpeedSetting_m_y_angle,
    SetBarHeightSetting_m_y_angle, SetRotationSpeedSetting_m_y_fixedAngle,
    SetBarColorSetting_m_y_fixedAngle]
  refine ⟨by norm_num, by norm_num, ?_, ?_, hq⟩
  · exact (SetRotationSpeedSetting_speed_bounds _ _).1
  · exact (SetRotationSpeedSetting_speed_bounds _ _).2

/-- The sample component turns about the Y axis at the speed 0.5 of the table. -/
theorem exampleState_y_speed : exampleState.m_y_speed = 0.5 := by
  rfl

/-- The members of interest after `SetSetting("rotation_angle", v)`. -/
theorem SetSetting_rotation_angle_fields (env : Env) (s : CVisualizationSpectrum) (v : Int) :
    (s.SetSetting env "rotation_angle" ⟨false, v⟩).2.m_y_fixedAngle = (v : ℚ)
    ∧ (s.SetSetting env "rotation_angle" ⟨false, v⟩).2.m_y_angle = s.m_y_angle
    ∧ (s.SetSetting env "rotation_angle" ⟨false, v⟩).2.m_y_speed = s.m_y_speed
    ∧ (s.SetSetting env "rotation_angle" ⟨false, v⟩).2.m_startOK = s.m_startOK := by
  rw [SetSetting_rotation_angle]
  exact ⟨rfl, rfl, rfl, rfl⟩

/-- The method `Render` keeps the Y speed, the fixed angle and the started flag. -/
theorem Render_keeps (s : CVisualizationSpectrum) :
    s.Render.1.m_y_speed = s.m_y_speed
    ∧ s.Render.1.m_y_fixedAngle = s.m_y_fixedAngle
    ∧ s.Render.1.m_startOK = s.m_startOK := by
  rw [Render_frame]
  exact ⟨rfl, rfl, rfl⟩

/-- On a Started component that turns at the speed 0.5, the fixed angle 720 shown
in one frame and then released leaves the angle at 360.5 after the next frame. -/
theorem large_fixed_angle_not_wrapped (env : Env) (a : CVisualizationSpectrum)
    (h1 : a.m_startOK = true) (h2 : a.m_y_speed = 0.5) :
    ((((a.SetSetting env "rotation_angle" ⟨false, 720⟩).2.Render.1).SetSetting env
        "rotation_angle" ⟨false, -1⟩).2.m_startOK = true
      ∧ (((a.SetSetting env "rotation_angle" ⟨false, 720⟩).2.Render.1).SetSetting env
        "rotation_angle" ⟨false, -1⟩).2.m_y_fixedAngle = -1
      ∧ (((a.SetSetting env "rotation_angle" ⟨false, 720⟩).2.Render.1).SetSetting env
        "rotation_angle" ⟨false, -1⟩).2.m_y_speed = 0.5)
    ∧ (((a.SetSetting env "rotation_angle" ⟨false, 720⟩).2.Render.1).SetSetting env
        "rotation_angle" ⟨false, -1⟩).2.Render.1.m_y_angle = 360.5 := by
  obtain ⟨b1, _, b3, b4⟩ := SetSetting_rotation_angle_fields env a 720
  rw [h1] at b4
  rw [h2] at b3
  obtain ⟨c1, c2, c3⟩ := Render_keeps (a.SetSetting env "rotation_angle" ⟨false, 720⟩).2
  rw [b3] at c1
  rw [b4] at c3
  have c4 : (a.SetSetting env "rotation_angle" ⟨false, 720⟩).2.Render.1.m_y_angle = 720 := by
    rw [(Render_angles _ b4).2.1, b1]
    norm_num
  obtain ⟨d1, d2, d3, d4⟩ := SetSetting_rotation_angle_fields env
    (a.SetSetting env "rotation_angle" ⟨false, 720⟩).2.Render.1 (-1)
  rw [c4] at d2
  rw [c1] at d3
  rw [c3] at d4
  have d1' : (((a.SetSetting env "rotation_angle" ⟨false, 720⟩).2.Render.1).SetSetting env
      "rotation_angle" ⟨false, -1⟩).2.m_y_fixedAngle = -1 := by
    rw [d1]; norm_num
  refine ⟨⟨d4, d1', d3⟩, ?_⟩
  rw [(Render_angles _ d4).2.1, d1', d2, d3]
  norm_num

/-- C20, the claim fails for a large fixed angle: on the sample component,
Started, `rotation_angle` 720 followed by a frame puts the angle at 720; after
`rotation_angle` -1 the component is Started with no fixed override and the speed
0.5 of the table, and the next frame leaves the angle at 360.5, which is not below
360. -/
theorem y_angle_not_wrapped_after_large_fixed_angle :
    (run exampleEnv exampleState
        [Call.Start 2 44100 16 "song" true true (1, 2),
          Call.SetSetting "rotation_angle" ⟨false, 720⟩, Call.Render,
          Call.SetSetting "rotation_angle" ⟨false, -1⟩]).m_startOK = true
    ∧ (run exampleEnv exampleState
        [Call.Start 2 44100 16 "song" true true (1, 2),
          Call.SetSetting "rotation_angle" ⟨false, 720⟩, Call.Render,
          Call.SetSetting "rotation_angle" ⟨false, -1⟩]).m_y_fixedAngle < 0
    ∧ (run exampleEnv exampleState
        [Call.Start 2 44100 16 "song" true true (1, 2),
          Call.SetSetting "rotation_angle" ⟨false, 720⟩, Call.Render,
          Call.SetSetting "rotation_angle" ⟨false, -1⟩]).m_y_speed = 0.5
    ∧ (run exampleEnv exampleState
        [Call.Start 2 44100 16 "song" true true (1, 2),
          Call.SetSetting "rotation_angle" ⟨false, 720⟩, Call.Render,
          Call.SetSetting "rotation_angle" ⟨false, -1⟩]).Render.1.m_y_angle = 360.5
    ∧ ¬ ((360.5 : ℚ) < 360) := by
  have hA1 : (exampleState.Start exampleEnv 2 44100 16 "song" true true (1, 2)).2.1.m_startOK
      = true := rfl
  have hA2 : (exampleState.Start exampleEnv 2 44100 16 "song" true true (1, 2)).2.1.m_y_speed
      = 0.5 := by
    rw [Start_frame]
    exact exampleState_y_speed
  obtain ⟨⟨k1, k2, k3⟩, k4⟩ := large_fixed_angle_not_wrapped exampleEnv _ hA1 hA2
  simp only [run, List.foldl_cons, List.foldl_nil, step]
  refine ⟨k1, ?_, k3, k4, by norm_num⟩
  rw [k2]; norm_num

/-- C20 (amended). Angle wrap for Y: after construction on a host whose
`rotation_angle` is at most 709 and any sequence of calls that configure no
`rotation_angle` above 709 (rotation speeds from the table), every `Render` on the
Started component with no fixed override (`m_y_fixedAngle < 0`) leaves
`0 ≤ m_y_angle < 360`. -/
theorem y_angle_in_range (env : Env) (g : Grid) (calls : List Call)
    (hhost : env.GetSettingInt "rotation_angle" ≤ 709)
    (hcalls : ∀ c ∈ calls, rotationAngleAtMost 709 c = true)
    (hs : (run env (CVisualizationSpectrum.ctor env g).1 calls).m_startOK = true)
    (hfree : (run env (CVisualizationSpectrum.ctor env g).1 calls).m_y_fixedAngle < 0) :
    0 ≤ (run env (CVisualizationSpectrum.ctor env g).1 calls).Render.1.m_y_angle
    ∧ (run env (CVisualizationSpectrum.ctor env g).1 calls).Render.1.m_y_angle < 360 := by
  have hinv : 0 ≤ (run env (CVisualizationSpectrum.ctor env g).1 calls).m_y_angle
      ∧ (run env (CVisualizationSpectrum.ctor env g).1 calls).m_y_angle < 710
      ∧ 0 < (run env (CVisualizationSpectrum.ctor env g).1 calls).m_y_speed
      ∧ (run env (CVisualizationSpectrum.ctor env g).1 calls).m_y_speed ≤ 10
      ∧ (run env (CVisualizationSpectrum.ctor env g).1 calls).m_y_fixedAngle ≤ 709 := by
    unfold run
    exact foldl_invariant_mem
      (fun t : CVisualizationSpectrum =>
        0 ≤ t.m_y_angle ∧ t.m_y_angle < 710 ∧ 0 < t.m_y_speed ∧ t.m_y_speed ≤ 10
          ∧ t.m_y_fixedAngle ≤ 709)
      (fun c : Call => rotationAngleAtMost 709 c = true)
      (step env) calls _ (ctor_y_angle env g hhost) hcalls
      (fun t c hc ht => step_y_angle env t c hc ht)
  obtain ⟨h1, h2, h3, h4, _⟩ := hinv
  have hf : (run env (CVisualizationSpectrum.ctor env g).1 calls).m_y_fixedAngle < 0.0 := by
    norm_num; exact hfree
  rw [(Render_angles _ hs).2.1, if_pos hf]
  exact wrap_once_bounds _ (by linarith) (by linarith)

/-- The amended C20 on the sample component: Started, with `rotation_angle` 350
shown in one frame and then released by `rotation_angle` -1, the next frame
leaves the angle in `[0, 360)`. -/
theorem y_angle_in_range_witness :
    0 ≤ (run exampleEnv (CVisualizationSpectrum.ctor exampleEnv (fun _ _ => 0)).1
          [Call.Start 2 44100 16 "song" true true (1, 2),
            Call.SetSetting "rotation_angle" ⟨false, 350⟩, Call.Render,
            Call.SetSetting "rotation_angle" ⟨false, -1⟩]).Render.1.m_y_angle
    ∧ (run exampleEnv (CVisualizationSpectrum.ctor exampleEnv (fun _ _ => 0)).1
          [Call.Start 2 44100 16 "song" true true (1, 2),
            Call.SetSetting "rotation_angle" ⟨false, 350⟩, Call.Render,
            Call.SetSetting "rotation_angle" ⟨false, -1⟩]).Render.1.m_y_angle < 360 :=
  y_angle_in_range exampleEnv (fun _ _ => 0)
    [Call.Start 2 44100 16 "song" true true (1, 2),
      Call.SetSetting "rotation_angle" ⟨false, 350⟩, Call.Render,
      Call.SetSetting "rotation_angle" ⟨false, -1⟩]
    (by decide)
    (by
      intro c hc
      simp only [List.mem_cons, List.mem_singleton, List.not_mem_nil, or_false] at hc
      rcases hc with h | h | h | h <;> subst h <;> decide)
    (by
      simp only [run, List.foldl_cons, List.foldl_nil, step]
      rw [(SetSetting_rotation_angle_fields _ _ _).2.2.2, (Render_keeps _).2.2,
        (SetSetting_rotation_angle_fields _ _ _).2.2.2]
      rfl)
    (by
      simp only [run, List.foldl_cons, List.foldl_nil, step]
      rw [(SetSetting_rotation_angle_fields _ _ _).1]
      norm_num)

/-! ## The scrolling history -/

/-- The sum of `b` samples read from the buffer of `f` from the offset `k` on is
the sum of the slice of `f` of length `b` at `k`. -/
theorem sum_range_bufferOf (f : List ℚ) (k b : Nat) :
    ∑ i ∈ Finset.range b, bufferOf f (k + i) = ((f.drop k).take b).sum := by
  induction b with
  | zero => simp
  | succ b ih =>
    rw [Finset.sum_range_succ, ih, List.take_succ, List.sum_append, List.getElem?_drop]
    congr 1
    unfold bufferOf
    rw [List.getD_eq_getElem?_getD]
    cases f[k + b]? <;> simp

/-- The row 0 after `AudioData` on the sequence `f` (with its length, an `int`) is
the new row of the specification. -/
theorem AudioData_row0_newRow (s : CVisualizationSpectrum) (pAudioData : Nat → ℚ)
    (iAudioDataLength : Int) (f : List ℚ) (hint : f.length < 2 ^ 31) (x : Nat) (hx : x < 16) :
    (s.AudioData pAudioData iAudioDataLength (bufferOf f) (f.length : Int)).1.m_heights 0 x
      = newRow f x := by
  rw [AudioData_heights s _ _ _ _ 0 x hx]
  simp only [if_true, newRow, toUnsigned_natCast f.length hint]
  by_cases hlt : f.length < 16
  · have hlt' : f.length < NUM_BARS := hlt
    simp only [hlt, hlt', if_true]
  · have hlt' : ¬ (f.length < NUM_BARS) := hlt
    simp only [hlt, hlt', if_false]
    have hd := divider_natCast f.length hint
    rw [toUnsigned_natCast f.length hint] at hd
    rw [hd, sum_range_bufferOf]

/-- The rows of the array after a sequence of audio calls: the row `j` is the new
row of the input given `j` calls before the last one. -/
theorem scrolling_rows (env : Env) (s : CVisualizationSpectrum)
    (inputs : List ((Nat → ℚ) × Int × List ℚ))
    (hint : ∀ a ∈ inputs, a.2.2.length < 2 ^ 31) :
    ∀ (j x : Nat) (a : (Nat → ℚ) × Int × List ℚ), j < 16 → x < 16 →
      inputs.reverse[j]? = some a →
      (run env s (inputs.map audioCall)).m_heights j x = newRow a.2.2 x := by
  induction inputs using List.reverseRecOn with
  | nil =>
    intro j x a _ _ h
    simp at h
  | append_singleton l b ih =>
    intro j x a hj hx h
    have hl : ∀ a ∈ l, a.2.2.length < 2 ^ 31 :=
      fun a ha => hint a (List.mem_append_left _ ha)
    have hb : b.2.2.length < 2 ^ 31 := hint b (by simp)
    have hrun : run env s ((l ++ [b]).map audioCall)
        = ((run env s (l.map audioCall)).AudioData b.1 b.2.1 (bufferOf b.2.2)
            (b.2.2.length : Int)).1 := by
      simp only [run, List.map_append, List.map_cons, List.map_nil, List.foldl_append,
        List.foldl_cons, List.foldl_nil, audioCall, step]
    rw [hrun]
    rw [List.reverse_concat] at h
    cases j with
    | zero =>
      simp only [List.getElem?_cons_zero, Option.some.injEq] at h
      subst h
      exact AudioData_row0_newRow _ _ _ _ hb x hx
    | succ j =>
      rw [List.getElem?_cons_succ] at h
      rw [AudioData_heights _ _ _ _ _ (j + 1) x hx]
      have h0 : ¬ (j + 1 = 0) := by omega
      have h15 : j + 1 ≤ 15 := by omega
      simp only [h0, if_false, h15, if_true, Nat.add_sub_cancel]
      exact ih hl j x a (by omega) hx h

/-- C21. Scrolling history: for every initial component and every sequence of
audio calls whose inputs `f_1 .. f_n` are sequences (each passed with its length,
an `int`), the row `j` of the final array is the new row of `f_(n-j)`, the input
given `j` calls before the last, for every `j` below `n` and below 16: the
sentinel row when that input has fewer than 16 samples, its 16 bucket sums
otherwise.  After 16 or more calls the 256 cells do not depend on the initial
array. -/
theorem scrolling_history (env : Env) (inputs : List ((Nat → ℚ) × Int × List ℚ))
    (hint : ∀ a ∈ inputs, a.2.2.length < 2 ^ 31) :
    (∀ (s : CVisualizationSpectrum) (j x : Nat) (a : (Nat → ℚ) × Int × List ℚ),
        j < 16 → x < 16 → inputs.reverse[j]? = some a →
        (run env s (inputs.map audioCall)).m_heights j x = newRow a.2.2 x)
    ∧ (∀ (s s' : CVisualizationSpectrum), 16 ≤ inputs.length →
        ∀ y x : Nat, y < 16 → x < 16 →
          (run env s' (inputs.map audioCall)).m_heights y x
            = (run env s (inputs.map audioCall)).m_heights y x) := by
  refine ⟨fun s => scrolling_rows env s inputs hint, fun s s' hlen y x hy hx => ?_⟩
  have hy' : y < inputs.reverse.length := by rw [List.length_reverse]; omega
  have hget : inputs.reverse[y]? = some (inputs.reverse[y]) := List.getElem?_eq_getElem hy'
  rw [scrolling_rows env s inputs hint y x _ hy hx hget,
    scrolling_rows env s' inputs hint y x _ hy hx hget]

/-- The claim C21 on the sample component after two inputs, 3 samples and then
32 samples equal to 1: the row 0 holds the bucket sums of the second input and
the row 1 the sentinel of the first. -/
theorem scrolling_history_witness :
    (run exampleEnv exampleState
        ([(fun _ => 0, 0, [1, 2, 3]), (fun _ => 0, 0, List.replicate 32 1)].map
          audioCall)).m_heights 0 5
      = newRow (List.replicate 32 1) 5
    ∧ (run exampleEnv exampleState
        ([(fun _ => 0, 0, [1, 2, 3]), (fun _ => 0, 0, List.replicate 32 1)].map
          audioCall)).m_heights 1 5
      = newRow [1, 2, 3] 5 :=
  ⟨(scrolling_history exampleEnv
      [(fun _ => 0, 0, [1, 2, 3]), (fun _ => 0, 0, List.replicate 32 1)]
      (by
        intro a ha
        simp only [List.mem_cons, List.mem_singleton, List.not_mem_nil, or_false] at ha
        rcases ha with h | h <;> subst h <;> simp)).1
      exampleState 0 5 (fun _ => 0, 0, List.replicate 32 1) (by decide) (by decide) rfl,
    (scrolling_history exampleEnv
      [(fun _ => 0, 0, [1, 2, 3]), (fun _ => 0, 0, List.replicate 32 1)]
      (by
        intro a ha
        simp only [List.mem_cons, List.mem_singleton, List.not_mem_nil, or_false] at ha
        rcases ha with h | h <;> subst h <;> simp)).1
      exampleState 1 5 (fun _ => 0, 0, [1, 2, 3]) (by decide) (by decide) rfl⟩

/-! ## The height scale and the drawing -/

/-- The draw calls of a frame do not depend on `m_scale`. -/
theorem Render_calls_scale (s : CVisualizationSpectrum) (m_scale : ℚ) :
    (CVisualizationSpectrum.Render { s with m_scale := m_scale }).2 = s.Render.2 := by
  by_cases hs : s.m_startOK = true
  · have hs' : (CVisualizationSpectrum.mk s.m_heights m_scale s.m_mode s.m_y_angle s.m_y_speed
        s.m_y_fixedAngle s.m_x_angle s.m_x_speed s.m_z_angle s.m_z_speed s.m_updateLag
        s.m_bar_color_type s.m_debugInfoAlreadyDisplayed s.m_pointSize s.m_vertex_buffer_data
        s.m_color_buffer_data s.m_vertexVBO s.m_startOK).m_startOK = true := hs
    apply List.ext_getElem?
    intro n
    by_cases hn : n < 256
    · have e : n = 16 * (n / 16) + n % 16 := (Nat.div_add_mod n 16).symm
      have hy : n / 16 < 16 := by omega
      have hx : n % 16 < 16 := Nat.mod_lt n (by decide)
      rw [e, (Render_calls s hs).2 _ _ hy hx, (Render_calls _ hs').2 _ _ hy hx]
      exact congrArg some (barCall_congr s _ _ _ ⟨rfl, rfl, rfl⟩)
    · rw [List.getElem?_eq_none (by rw [(Render_calls _ hs').1]; omega),
        List.getElem?_eq_none (by rw [(Render_calls s hs).1]; omega)]
  · have hs0 : s.m_startOK = false := by simpa using hs
    have hs0' : (CVisualizationSpectrum.mk s.m_heights m_scale s.m_mode s.m_y_angle s.m_y_speed
        s.m_y_fixedAngle s.m_x_angle s.m_x_speed s.m_z_angle s.m_z_speed s.m_updateLag
        s.m_bar_color_type s.m_debugInfoAlreadyDisplayed s.m_pointSize s.m_vertex_buffer_data
        s.m_color_buffer_data s.m_vertexVBO s.m_startOK).m_startOK = false := hs0
    rw [Render_stopped s hs0, Render_stopped _ hs0']

/-- C22. The height scale does not influence what is drawn: two components that
differ only in `m_scale` issue the same draw calls in `Render`, with the same
positions and colours for all 256 bars; so `SetSetting("bar_height", v)` leaves
the draw calls of the next frame as they were; and the positions of the bar of
the cell `(y, x)` are built from the raw value `m_heights[y][x]`. -/
theorem bar_height_does_not_influence_drawing :
    (∀ (s : CVisualizationSpectrum) (m_scale : ℚ),
        (CVisualizationSpectrum.Render { s with m_scale := m_scale }).2 = s.Render.2)
    ∧ (∀ (env : Env) (s : CVisualizationSpectrum) (v : Int),
        (s.SetSetting env "bar_height" ⟨false, v⟩).2.Render.2 = s.Render.2)
    ∧ (∀ s : CVisualizationSpectrum, s.m_startOK = true →
        ∀ y x : Nat, y < 16 → x < 16 →
          (s.Render.2[16 * y + x]?).map DrawCall.vertices
            = some (barVertices (-1.6 + 0.2 * (x : ℚ)) (-1.6 + 0.2 * (16 - (y : ℚ)))
                (s.m_heights y x) 0.1)) := by
  refine ⟨Render_calls_scale, fun env s v => ?_, fun s hs y x hy hx => ?_⟩
  · rw [SetSetting_bar_height, SetBarHeightSetting_frame]
    exact Render_calls_scale s _
  · rw [(Render_calls s hs).2 y x hy hx, barCall_eq s y x (by omega)]
    rfl

/-- The claim C22 on the sample component once Started: the vertices of the first
bar of a frame are built from the raw value of the cell `[0][0]`. -/
theorem bar_height_does_not_influence_drawing_witness :
    ((CVisualizationSpectrum.Render
        { exampleState with m_startOK := true }).2[16 * 0 + 0]?).map DrawCall.vertices
      = some (barVertices (-1.6 + 0.2 * ((0 : Nat) : ℚ)) (-1.6 + 0.2 * (16 - ((0 : Nat) : ℚ)))
          (exampleState.m_heights 0 0) 0.1) :=
  bar_height_does_not_influence_drawing.2.2 { exampleState with m_startOK := true } rfl 0 0
    (by decide) (by decide)

/-! ## The default colour scheme -/

/-- C23. Default scheme stays in range: with a stored colour scheme other than 1
and 2 (0 among them), for every column `c` and row `y` below 16 the colour is
`r = (1 - y/16) - c * ((1 - y/16)/16)`, `g = c/16`, `b = y/16`, with `0 < r ≤ 1`,
`0 ≤ g < 1` and `0 ≤ b < 1`; and that is the colour of the bar of the cell
`(y, c)` in a frame. -/
theorem computed_gradient_in_range :
    (∀ (t : Int) (c y : Nat), t ≠ 1 → t ≠ 2 →
        barColor t c (1 - (y : ℚ) / 16) ((y : ℚ) / 16)
          = ((1 - (y : ℚ) / 16) - (c : ℚ) * ((1 - (y : ℚ) / 16) / 16), (c : ℚ) / 16,
              (y : ℚ) / 16))
    ∧ (∀ (t : Int) (c y : Nat), t ≠ 1 → t ≠ 2 → c < 16 → y < 16 →
        0 < (barColor t c (1 - (y : ℚ) / 16) ((y : ℚ) / 16)).1
        ∧ (barColor t c (1 - (y : ℚ) / 16) ((y : ℚ) / 16)).1 ≤ 1
        ∧ 0 ≤ (barColor t c (1 - (y : ℚ) / 16) ((y : ℚ) / 16)).2.1
        ∧ (barColor t c (1 - (y : ℚ) / 16) ((y : ℚ) / 16)).2.1 < 1
        ∧ 0 ≤ (barColor t c (1 - (y : ℚ) / 16) ((y : ℚ) / 16)).2.2
        ∧ (barColor t c (1 - (y : ℚ) / 16) ((y : ℚ) / 16)).2.2 < 1)
    ∧ (∀ s : CVisualizationSpectrum, s.m_startOK = true →
        s.m_bar_color_type ≠ 1 → s.m_bar_color_type ≠ 2 →
        ∀ y c : Nat, y < 16 → c < 16 →
          s.Render.2[16 * y + c]?
            = some (s.draw_bar (-1.6 + 0.2 * (c : ℚ)) (-1.6 + 0.2 * (16 - (y : ℚ)))
                (s.m_heights y c)
                ((1 - (y : ℚ) / 16) - (c : ℚ) * ((1 - (y : ℚ) / 16) / 16))
                ((c : ℚ) / 16) ((y : ℚ) / 16)).2) := by
  have hcol : ∀ (t : Int) (c y : Nat), t ≠ 1 → t ≠ 2 →
      barColor t c (1 - (y : ℚ) / 16) ((y : ℚ) / 16)
        = ((1 - (y : ℚ) / 16) - (c : ℚ) * ((1 - (y : ℚ) / 16) / 16), (c : ℚ) / 16,
            (y : ℚ) / 16) := by
    intro t c y h1 h2
    simp only [barColor, h1, h2, if_false]
    refine Prod.ext rfl (Prod.ext ?_ rfl)
    show (c : ℚ) * (1.0 / ((NUM_BARS : Nat) : ℚ)) = (c : ℚ) / 16
    push_cast
    ring
  refine ⟨hcol, fun t c y h1 h2 hc hy => ?_, fun s hs h1 h2 y c hy hc => ?_⟩
  · rw [hcol t c y h1 h2]
    have c0 : (0 : ℚ) ≤ (c : ℚ) := Nat.cast_nonneg c
    have c15 : (c : ℚ) ≤ 15 := by exact_mod_cast Nat.lt_succ_iff.mp hc
    have y0 : (0 : ℚ) ≤ (y : ℚ) := Nat.cast_nonneg y
    have y15 : (y : ℚ) ≤ 15 := by exact_mod_cast Nat.lt_succ_iff.mp hy
    have ha : (0 : ℚ) < 1 - (y : ℚ) / 16 := by linarith
    have ha1 : 1 - (y : ℚ) / 16 ≤ 1 := by linarith
    have hb : (0 : ℚ) < 1 - (c : ℚ) / 16 := by linarith
    have hb1 : 1 - (c : ℚ) / 16 ≤ 1 := by linarith
    have e : (1 - (y : ℚ) / 16) - (c : ℚ) * ((1 - (y : ℚ) / 16) / 16)
        = (1 - (y : ℚ) / 16) * (1 - (c : ℚ) / 16) := by ring
    refine ⟨?_, ?_, ?_, ?_, ?_, ?_⟩
    · show 0 < (1 - (y : ℚ) / 16) - (c : ℚ) * ((1 - (y : ℚ) / 16) / 16)
      rw [e]; exact mul_pos ha hb
    · show (1 - (y : ℚ) / 16) - (c : ℚ) * ((1 - (y : ℚ) / 16) / 16) ≤ 1
      rw [e]; nlinarith
    · show 0 ≤ (c : ℚ) / 16
      linarith
    · show (c : ℚ) / 16 < 1
      linarith
    · show 0 ≤ (y : ℚ) / 16
      linarith
    · show (y : ℚ) / 16 < 1
      linarith
  · rw [(Render_calls s hs).2 y c hy hc, barCall_eq s y c (by omega), hcol _ c y h1 h2]

/-- The claim C23 for the scheme 0 in the column 15 and the row 15, the corner
where the red component is smallest: the three components are in range. -/
theorem computed_gradient_in_range_witness :
    0 < (barColor 0 15 (1 - ((15 : Nat) : ℚ) / 16) (((15 : Nat) : ℚ) / 16)).1
    ∧ (barColor 0 15 (1 - ((15 : Nat) : ℚ) / 16) (((15 : Nat) : ℚ) / 16)).1 ≤ 1
    ∧ 0 ≤ (barColor 0 15 (1 - ((15 : Nat) : ℚ) / 16) (((15 : Nat) : ℚ) / 16)).2.1
    ∧ (barColor 0 15 (1 - ((15 : Nat) : ℚ) / 16) (((15 : Nat) : ℚ) / 16)).2.1 < 1
    ∧ 0 ≤ (barColor 0 15 (1 - ((15 : Nat) : ℚ) / 16) (((15 : Nat) : ℚ) / 16)).2.2
    ∧ (barColor 0 15 (1 - ((15 : Nat) : ℚ) / 16) (((15 : Nat) : ℚ) / 16)).2.2 < 1 :=
  computed_gradient_in_range.2.1 0 15 15 (by decide) (by decide) (by decide) (by decide)
